import Mathlib

/-!
Verification development for the constant-folding optimization pass in
src/optimizer_scripts/tools/constant_folding.py.

The pass operates on an ONNX-style graph protobuf.  We embed the graph data
model shallowly: nodes, value-info records and tensor payloads become Lean
structures; tensor elements are modelled as exact rationals (the source works
on Python floats through numpy, and every numeric fact proved below involves
only arithmetic that is exact in both representations).  Python lists that are
mutated while being iterated (the source does this in several places) are
modelled by index-based iteration over the current list, which is exactly how
a Python `for x in lst` loop behaves under mutation.  Python exceptions become
`Except String` results.  Helper functions from the repository that are not
part of src/ (helper.py, other.py) and the external numpy/onnx library calls
are modelled from the spec's stated contracts; each such definition carries a
doc comment saying so.
-/

set_option maxRecDepth 4000
set_option maxHeartbeats 1000000

/-- Model of an ONNX TensorProto payload: element dtype code, shape dims and a
flat row-major element list.  Elements are exact rationals. -/
structure Tensor where
  name : String
  data_type : Int
  dims : List Int
  vals : List Rat
deriving DecidableEq, Repr, Inhabited

/-- Model of an ONNX AttributeProto: the source reads `.i`, `.ints` and `.t`
fields depending on the attribute. -/
structure Attr where
  name : String
  i : Int
  ints : List Int
  t : Tensor
deriving DecidableEq, Repr, Inhabited

/-- Model of an ONNX NodeProto: op kind, name, input/output value names and
static attributes. -/
structure Node where
  op_type : String
  name : String
  input : List String
  output : List String
  attrs : List Attr
deriving DecidableEq, Repr, Inhabited

/-- Model of an ONNX ValueInfoProto: name plus element dtype and shape. -/
structure ValueInfo where
  name : String
  elem_type : Int
  shape : List Int
deriving DecidableEq, Repr, Inhabited

/-- Model of an ONNX GraphProto restricted to the two fields the pass touches:
the node list and the value_info list. -/
structure Graph where
  node : List Node
  value_info : List ValueInfo
deriving DecidableEq, Repr, Inhabited

instance exceptDecEq {ε α : Type} [DecidableEq ε] [DecidableEq α] :
    DecidableEq (Except ε α) := fun x y =>
  match x, y with
  | Except.ok a, Except.ok b =>
    if h : a = b then isTrue (by rw [h])
    else isFalse (fun hc => by cases hc; exact h rfl)
  | Except.error a, Except.error b =>
    if h : a = b then isTrue (by rw [h])
    else isFalse (fun hc => by cases hc; exact h rfl)
  | Except.ok _, Except.error _ => isFalse (fun hc => by cases hc)
  | Except.error _, Except.ok _ => isFalse (fun hc => by cases hc)

/-- Model of onnx.helper.make_tensor. -/
def make_tensor (name : String) (data_type : Int) (dims : List Int)
    (vals : List Rat) : Tensor :=
  ⟨name, data_type, dims, vals⟩

/-- Model of onnx.helper.make_node for a Constant node carrying a `value`
tensor attribute, the only form the source builds. -/
def make_constant_node (out : String) (name : String) (t : Tensor) : Node :=
  ⟨"Constant", name, [], [out], [⟨"value", 0, [], t⟩]⟩

/-- Model of onnx.helper.make_tensor_value_info. -/
def make_tensor_value_info (name : String) (elem_type : Int)
    (shape : List Int) : ValueInfo :=
  ⟨name, elem_type, shape⟩

/-- Modelled from the spec: `find_producer(value_name) -> Node?` — the node
producing a given value, or none (helper.find_node_by_output_name is
repository code not under src/). -/
def find_node_by_output_name (g : Graph) (name : String) : Option Node :=
  g.node.find? (fun n => n.output.contains name)

/-- Modelled from the spec: `find_consumers(value_name) -> [Node]` — all nodes
reading a given value (helper.find_nodes_by_input_name is repository code not
under src/). -/
def find_nodes_by_input_name (g : Graph) (name : String) : List Node :=
  g.node.filter (fun n => n.input.contains name)

/-- Modelled from the spec: `find_value_metadata(value_name) -> Value?`
(helper.find_value_by_name is repository code not under src/). -/
def find_value_by_name (g : Graph) (name : String) : Option ValueInfo :=
  g.value_info.find? (fun v => v.name == name)

/-- Modelled from the spec: shape accessor for a Value record
(helper.get_shape_from_value_info is repository code not under src/). -/
def get_shape_from_value_info (v : ValueInfo) : List Int :=
  v.shape

/-- The Python-level shape value returned by helper.constant_to_list: a bare
integer 1 for a rank-0 scalar, otherwise the list of dims (spec §9: the
overloaded "shape" sentinel). -/
inductive PyShape where
  | scalar
  | dims (l : List Int)
deriving DecidableEq, Repr

/-- Modelled from the spec: `constant_payload(node) -> (shape, flat_elements)`
with the scalar sentinel (bare integer 1, here `PyShape.scalar`) returned when
the embedded tensor has empty dims (helper.constant_to_list is repository code
not under src/). -/
def constant_to_list (node : Node) : PyShape × List Rat :=
  let t := (node.attrs.headD default).t
  (if t.dims = [] then PyShape.scalar else PyShape.dims t.dims, t.vals)

/-- Modelled from the spec: `build_constant(name, shape, flat_elements, dtype)`
(helper.list_to_constant is repository code not under src/; its dtype argument
defaults to the float dtype code when a call site omits it). -/
def list_to_constant (name : String) (shape : List Int) (data : List Rat)
    (data_type : Int) : Node :=
  make_constant_node name name (make_tensor name data_type shape data)

/-- Modelled from the spec: attribute lookup by name
(helper.get_attribute_by_name is repository code not under src/). -/
def get_attribute_by_name (node : Node) (name : String) : Option Attr :=
  node.attrs.find? (fun a => a.name == name)

/-- Model of a numpy ndarray: shape plus flat row-major data. -/
structure NDArray where
  shape : List Nat
  data : List Rat
deriving DecidableEq, Repr, Inhabited

def listProd (l : List Nat) : Nat :=
  l.foldr (fun a b => a * b) 1

/-- Row-major multi-index of flat position `i` in `shape`. -/
def idxDigits : List Nat → Nat → List Nat
  | [], _ => []
  | _ :: ds, i => (i / listProd ds) :: idxDigits ds (i % listProd ds)

/-- Row-major flat position of multi-index `cs` in `shape`. -/
def flattenIdx : List Nat → List Nat → Nat
  | [], _ => 0
  | _, [] => 0
  | _ :: ds, c :: cs => c * listProd ds + flattenIdx ds cs

/-- Numpy broadcasting of two shapes given in reversed (last-dim-first)
order: equal dims agree, a dim of size 1 stretches, missing leading dims are
filled in. -/
def broadcastRev : List Nat → List Nat → Option (List Nat)
  | [], ys => some ys
  | x :: xs, [] => some (x :: xs)
  | x :: xs, y :: ys =>
    (broadcastRev xs ys).bind (fun rest =>
      if x = y then some (x :: rest)
      else if x = 1 then some (y :: rest)
      else if y = 1 then some (x :: rest)
      else none)

/-- Model of numpy shape broadcasting: shapes are right-aligned and size-1
dims stretch; `none` on incompatible shapes. -/
def broadcastShape (s1 s2 : List Nat) : Option (List Nat) :=
  (broadcastRev s1.reverse s2.reverse).map List.reverse

/-- Element of `a` corresponding to multi-index `outCoords` of the broadcast
result shape: trailing coordinates are kept and coordinates over stretched
size-1 dims are clamped to 0. -/
def bcastFetch (a : NDArray) (outCoords : List Nat) : Rat :=
  let cs := outCoords.drop (outCoords.length - a.shape.length)
  let cs2 := List.zipWith (fun c d => if d = 1 then 0 else c) cs a.shape
  a.data.getD (flattenIdx a.shape cs2) 0

/-- Model of a numpy elementwise binary operation (np.add, np.subtract,
np.multiply, np.divide) under standard broadcasting; `none` models the
broadcast-incompatibility exception. -/
def npBinop (f : Rat → Rat → Rat) (a b : NDArray) : Option NDArray :=
  (broadcastShape a.shape b.shape).map (fun s =>
    ⟨s, (List.range (listProd s)).map (fun i =>
      let cs := idxDigits s i
      f (bcastFetch a cs) (bcastFetch b cs))⟩)

/-- Model of np.reshape(flat_list, shape) where shape is the Python-level
value from constant_to_list: the bare integer 1 produces a shape-(1,) array
(requiring exactly one element), a dim list must match the element count. -/
def npReshapeList (data : List Rat) (s : PyShape) : Except String NDArray :=
  let dims := match s with
    | PyShape.scalar => [1]
    | PyShape.dims l => l.map Int.toNat
  if listProd dims = data.length then Except.ok ⟨dims, data⟩
  else Except.error "ValueError: cannot reshape array"

def ndShapeInt (a : NDArray) : List Int :=
  a.shape.map Int.ofNat

/-- Modelled from the spec: helper.get_shape of an ndarray (repository code
not under src/) — the shape as a plain list. -/
def get_shape (a : NDArray) : List Int :=
  ndShapeInt a

/-- Modelled from the spec: helper.flatten_to_list (repository code not under
src/) — the flat row-major element list. -/
def flatten_to_list (a : NDArray) : List Rat :=
  a.data

/-- Modelled from the spec: helper.constant_to_numpy (repository code not
under src/) — the embedded tensor as an ndarray with its declared dims. -/
def constant_to_numpy (node : Node) : NDArray :=
  let t := (node.attrs.headD default).t
  ⟨t.dims.map Int.toNat, t.vals⟩

/-- Python int() on a float value: truncation toward zero, on our exact
rational model. -/
def ratTrunc (q : Rat) : Int :=
  if q < 0 then -(((-q.num).toNat / q.den : Nat) : Int)
  else ((q.num.toNat / q.den : Nat) : Int)

/-- Mathematical floor of a rational, for np.floor. -/
def ratFloor (q : Rat) : Int :=
  let t := ratTrunc q
  if q < 0 ∧ (t : Rat) ≠ q then t - 1 else t

/-- Python abs on our rational model. -/
def ratAbs (q : Rat) : Rat :=
  if q < 0 then -q else q

/-- Reducible rational addition.  Batteries marks Rat.add (and mul, sub, inv)
`@[irreducible]`, which blocks elaborator-level evaluation of the embedded
evaluators; these compute the same normalized values through `mkRat`. -/
def qAdd (a b : Rat) : Rat :=
  mkRat (a.num * (b.den : Int) + b.num * (a.den : Int)) (a.den * b.den)

/-- Reducible rational multiplication (see qAdd). -/
def qMul (a b : Rat) : Rat :=
  mkRat (a.num * b.num) (a.den * b.den)

/-- Reducible rational subtraction (see qAdd). -/
def qSub (a b : Rat) : Rat :=
  qAdd a (-b)

/-- Reducible rational inverse, with the 0 |-> 0 convention of Rat.inv
(see qAdd). -/
def qInv (a : Rat) : Rat :=
  if a.num < 0 then mkRat (-(a.den : Int)) a.num.natAbs
  else if 0 < a.num then mkRat (a.den : Int) a.num.natAbs
  else 0

/-- Reducible rational division (see qAdd). -/
def qDiv (a b : Rat) : Rat :=
  qMul a (qInv b)

/-- Model of np.sqrt restricted to exact squares of rationals (elsewhere the
float result is irrational and outside the rational model; no claim below
depends on the Sqrt evaluator's numeric output). -/
def ratSqrt (q : Rat) : Rat :=
  let n := Nat.sqrt q.num.toNat
  let d := Nat.sqrt q.den
  if n * n = q.num.toNat ∧ d * d = q.den then mkRat (n : Int) d else 0

/-- Normalize a possibly negative Python index against dim `d`, clamped to
[0, d] (Python slice semantics). -/
def normSliceIdx (d : Nat) (i : Int) : Nat :=
  let j := if i < 0 then i + (d : Int) else i
  if j < 0 then 0 else if j > (d : Int) then d else j.toNat

/-- One-axis slice `a[..., s:e, ...]` along `axis`. -/
def sliceAxis (a : NDArray) (axis : Nat) (s e : Int) : NDArray :=
  let d := a.shape.getD axis 0
  let s2 := normSliceIdx d s
  let e2 := normSliceIdx d e
  let len := e2 - s2
  let shape2 := a.shape.set axis len
  ⟨shape2, (List.range (listProd shape2)).map (fun i =>
    let cs := idxDigits shape2 i
    let cs2 := cs.set axis (cs.getD axis 0 + s2)
    a.data.getD (flattenIdx a.shape cs2) 0)⟩

/-- Modelled from the spec: helper.slice_data (repository code not under
src/) — applies per-axis starts/ends with standard half-open Python range
semantics along the listed axes. -/
def slice_data (a : NDArray) (starts ends : List Int) (axes : List Int) :
    NDArray :=
  (axes.zip (starts.zip ends)).foldl (fun acc p =>
    let ax := if p.1 < 0 then (p.1 + (acc.shape.length : Int)).toNat
              else p.1.toNat
    sliceAxis acc ax p.2.1 p.2.2) a

/-- Model of np.transpose with an explicit permutation. -/
def npTranspose (a : NDArray) (perm : List Nat) : NDArray :=
  let s2 := perm.map (fun p => a.shape.getD p 0)
  ⟨s2, (List.range (listProd s2)).map (fun i =>
    let cs := idxDigits s2 i
    let orig := (List.range a.shape.length).map (fun k =>
      cs.getD (perm.findIdx (fun p => p = k)) 0)
    a.data.getD (flattenIdx a.shape orig) 0)⟩

/-- Model of np.expand_dims: insert a size-1 axis at `axis` (negative counts
from the end of the new shape). -/
def npExpandDims (a : NDArray) (axis : Int) : NDArray :=
  let r := a.shape.length
  let ax := (if axis < 0 then axis + (r : Int) + 1 else axis).toNat
  ⟨a.shape.take ax ++ [1] ++ a.shape.drop ax, a.data⟩

/-- Model of np.take along `axis` with an index tensor of shape `idxShape`
(the empty shape models a scalar index, which collapses the axis). -/
def npTake (a : NDArray) (idxShape : List Nat) (idxVals : List Int)
    (axis : Nat) : NDArray :=
  let s2 := a.shape.take axis ++ idxShape ++ a.shape.drop (axis + 1)
  ⟨s2, (List.range (listProd s2)).map (fun i =>
    let cs := idxDigits s2 i
    let pre := cs.take axis
    let mid := (cs.drop axis).take idxShape.length
    let post := cs.drop (axis + idxShape.length)
    let iv := idxVals.getD (flattenIdx idxShape mid) 0
    let d := a.shape.getD axis 0
    let ivn := (if iv < 0 then iv + (d : Int) else iv).toNat
    a.data.getD (flattenIdx a.shape (pre ++ [ivn] ++ post)) 0)⟩

/-- Concatenation of two equal-rank arrays along `axis`; `none` models the
numpy error when the non-axis dims disagree. -/
def npConcat2 (a b : NDArray) (axis : Nat) : Option NDArray :=
  if a.shape.length = b.shape.length ∧
      (List.range a.shape.length).all (fun k =>
        k = axis ∨ a.shape.getD k 0 = b.shape.getD k 0) then
    let da := a.shape.getD axis 0
    let s2 := a.shape.set axis (da + b.shape.getD axis 0)
    some ⟨s2, (List.range (listProd s2)).map (fun i =>
      let cs := idxDigits s2 i
      let c := cs.getD axis 0
      if c < da then a.data.getD (flattenIdx a.shape cs) 0
      else b.data.getD (flattenIdx b.shape (cs.set axis (c - da))) 0)⟩
  else none

/-- Model of np.concatenate over a nonempty list of arrays. -/
def npConcatList (l : List NDArray) (axis : Int) : Option NDArray :=
  match l with
  | [] => none
  | a :: rest =>
    let ax := (if axis < 0 then axis + (a.shape.length : Int) else axis).toNat
    rest.foldlM (fun acc b => npConcat2 acc b ax) a

/-- Model of np.prod over an axis set with keepdims: the reduced axes become
size 1 (and are dropped afterwards when keepdims is false). -/
def npProdReduce (a : NDArray) (axes : List Int) (keepdims : Bool) : NDArray :=
  let r := a.shape.length
  let axn := axes.map (fun x => (if x < 0 then x + (r : Int) else x).toNat)
  let keepShape := (List.range r).map (fun k =>
    if axn.contains k then 1 else a.shape.getD k 0)
  let proj := fun (cs : List Nat) => (List.range r).map (fun k =>
    if axn.contains k then 0 else cs.getD k 0)
  let vals := (List.range (listProd keepShape)).map (fun o =>
    let ocs := idxDigits keepShape o
    ((List.range (listProd a.shape)).filter (fun i =>
      proj (idxDigits a.shape i) = ocs)).foldl
        (fun acc i => qMul acc (a.data.getD i 0)) 1)
  if keepdims then ⟨keepShape, vals⟩
  else ⟨((List.range r).filter (fun k => ¬ axn.contains k)).map
    (fun k => a.shape.getD k 0), vals⟩

/-- Model of np.reshape with an integer target shape that may contain one -1
to be inferred from the element count. -/
def npReshapeInfer (a : NDArray) (newshape : List Int) : Except String NDArray :=
  let size := a.data.length
  let negs := newshape.filter (fun d => d = -1)
  let knownProd := listProd ((newshape.filter (fun d => d ≠ -1)).map Int.toNat)
  if negs.length > 1 then Except.error "ValueError: can only specify one unknown dimension"
  else if negs.length = 1 then
    if knownProd ≠ 0 ∧ size % knownProd = 0 then
      Except.ok ⟨newshape.map (fun d =>
        if d = -1 then size / knownProd else d.toNat), a.data⟩
    else Except.error "ValueError: cannot reshape array"
  else if knownProd = size then Except.ok ⟨newshape.map Int.toNat, a.data⟩
  else Except.error "ValueError: cannot reshape array"

/-- First-occurrence removal, `none` when the element is absent (Python
list.remove raises ValueError in that case). -/
def listRemoveFirst {α : Type} [DecidableEq α] (l : List α) (a : α) :
    Option (List α) :=
  if a ∈ l then some (l.erase a) else none

/-- Model of `g.node.remove(node)`: ValueError when absent. -/
def graphRemoveNode (g : Graph) (n : Node) : Except String Graph :=
  match listRemoveFirst g.node n with
  | some l => Except.ok { g with node := l }
  | none => Except.error "ValueError: list.remove(x): x not in list"

/-- Model of `g.value_info.remove(v)` where `v` may be the result of a failed
lookup (removing `None` raises, as does removing an absent record). -/
def graphRemoveValueOpt (g : Graph) (v : Option ValueInfo) :
    Except String Graph :=
  match v with
  | none => Except.error "ValueError: list.remove(x): x not in list"
  | some vi =>
    match listRemoveFirst g.value_info vi with
    | some l => Except.ok { g with value_info := l }
    | none => Except.error "ValueError: list.remove(x): x not in list"

/-- Replace the first occurrence of `a` by `b` (the Python code mutates a node
object held inside the graph's node list in place). -/
def replaceFirstList {α : Type} [DecidableEq α] : List α → α → α → List α
  | [], _, _ => []
  | x :: xs, a, b => if x = a then b :: xs else x :: replaceFirstList xs a b

def graphReplaceNode (g : Graph) (a b : Node) : Graph :=
  { g with node := replaceFirstList g.node a b }

/-- The deferred `while node_to_delete: g.node.remove(node_to_delete.pop())`
loop every evaluator ends with: removals happen in LIFO order. -/
def deleteNodesLIFO (g : Graph) (to_del : List Node) : Except String Graph :=
  to_del.reverse.foldlM (fun g n => graphRemoveNode g n) g

/-- A node of the remaining list is ready when none of its inputs is produced
by a different remaining node. -/
def topoReady (rem : List Node) (n : Node) : Bool :=
  n.input.all (fun i =>
    (rem.filter (fun m => ¬ m = n)).all (fun m => ¬ m.output.contains i))

def topoAux : Nat → List Node → List Node → List Node
  | 0, acc, rem => acc ++ rem
  | fuel + 1, acc, rem =>
    match rem.find? (topoReady rem) with
    | some n => topoAux fuel (acc ++ [n]) (rem.erase n)
    | none => acc ++ rem

/-- Modelled from the spec: `topological_sort(graph)` reorders the node
collection into a valid dependency order (tools/other.py is repository code
not under src/); modelled as a deterministic stable Kahn sort. -/
def topological_sort (g : Graph) : Graph :=
  { g with node := topoAux (g.node.length + 1) [] g.node }

/-- The keys of the `constant_folding_nodes` registry dict,
constant_folding.py lines 998-1015. -/
def constant_folding_node_keys : List String :=
  ["Add", "Cast", "Concat", "Div", "Floor", "Gather", "Mul", "Reciprocal",
   "ReduceProd", "Reshape", "Slice", "Sqrt", "Transpose", "Unsqueeze",
   "Sub", "Neg"]

/-- The loop body of are_all_inputs_Constant_with_one_child, lines 12-18:
one input passes when its producer exists, is a Constant, and the input value
has at most one consumer. -/
def input_is_Constant_with_one_child (g : Graph) (input_name : String) : Bool :=
  match find_node_by_output_name g input_name with
  | none => false
  | some input_node =>
    if input_node.op_type ≠ "Constant" then false
    else if (find_nodes_by_input_name g input_name).length > 1 then false
    else true

/-- are_all_inputs_Constant_with_one_child, constant_folding.py lines 11-19:
the early-return loop over the node's inputs is an `all`. -/
def are_all_inputs_Constant_with_one_child (g : Graph) (node : Node) : Bool :=
  node.input.all (input_is_Constant_with_one_child g)

def sortIntsInsert (x : Int) : List Int → List Int
  | [] => [x]
  | y :: ys => if x ≤ y then x :: y :: ys else y :: sortIntsInsert x ys

/-- Ascending sort of an int list (Python list.sort()). -/
def sortInts (l : List Int) : List Int :=
  l.foldr sortIntsInsert []

/-- slice_constant_folding, lines 145-183: iteration body.  The Python `for`
loop walks the live node list by index while the body appends new constants at
the end and defers removals, so the recursion carries the index, the pending
`node_to_delete` list and the `folded` flag. -/
def slice_fold_aux : Nat → Nat → Graph → List Node → Bool →
    Except String (Graph × Bool)
  | 0, _, _, _, _ => Except.error "fuel exhausted"
  | fuel + 1, idx, g, to_del, folded =>
    if h : idx < g.node.length then
      let node := g.node.get ⟨idx, h⟩
      if node.op_type ≠ "Slice" then slice_fold_aux fuel (idx + 1) g to_del folded
      else
        match find_node_by_output_name g (node.input.getD 0 "") with
        | none => Except.error "AttributeError: NoneType has no attribute op_type"
        | some pre_node =>
          if pre_node.op_type ≠ "Constant" then
            slice_fold_aux fuel (idx + 1) g to_del folded
          else
            let (pre_shape, data_list) := constant_to_list pre_node
            match npReshapeList data_list pre_shape with
            | Except.error e => Except.error e
            | Except.ok data =>
              match get_attribute_by_name node "ends",
                    get_attribute_by_name node "starts" with
              | none, _ => Except.error "AttributeError: NoneType has no attribute ints"
              | _, none => Except.error "AttributeError: NoneType has no attribute ints"
              | some endsAttr, some startsAttr =>
                let axes := match get_attribute_by_name node "axes" with
                  | none => (List.range data.shape.length).map Int.ofNat
                  | some a => a.ints
                let new_data := slice_data data startsAttr.ints endsAttr.ints axes
                let new_node := list_to_constant (node.output.getD 0 "")
                  (get_shape new_data) (flatten_to_list new_data) 1
                let g := { g with node := g.node ++ [new_node] }
                let to_del := to_del ++ [node, pre_node]
                match graphRemoveValueOpt g
                    (find_value_by_name g (pre_node.output.getD 0 "")) with
                | Except.error e => Except.error e
                | Except.ok g => slice_fold_aux fuel (idx + 1) g to_del true
    else
      match deleteNodesLIFO g to_del with
      | Except.error e => Except.error e
      | Except.ok g => Except.ok (topological_sort g, folded)

/-- slice_constant_folding, constant_folding.py lines 145-183. -/
def slice_constant_folding (g : Graph) : Except String (Graph × Bool) :=
  slice_fold_aux (2 * g.node.length + 2) 0 g [] false

/-- The dtype dispatch of cast_constant_folding, lines 201-207: codes 6 and 7
(int32/int64) convert through Python int() truncation, code 1
(TensorProto.FLOAT) through float(), anything else raises. -/
def castConvert (data_type : Int) (data : List Rat) :
    Except String (List Rat) :=
  if data_type = 6 ∨ data_type = 7 then
    Except.ok (data.map (fun x => ((ratTrunc x : Int) : Rat)))
  else if data_type = 1 then
    Except.ok (data.map (fun x => x))
  else
    Except.error "data type not supported"

/-- cast_constant_folding, lines 186-245: iteration body. -/
def cast_fold_aux : Nat → Nat → Graph → List Node → Bool →
    Except String (Graph × Bool)
  | 0, _, _, _, _ => Except.error "fuel exhausted"
  | fuel + 1, idx, g, to_del, folded =>
    if h : idx < g.node.length then
      let node := g.node.get ⟨idx, h⟩
      if node.op_type ≠ "Cast" then cast_fold_aux fuel (idx + 1) g to_del folded
      else
        match find_node_by_output_name g (node.input.getD 0 "") with
        | none => cast_fold_aux fuel (idx + 1) g to_del folded
        | some pre_node =>
          if pre_node.op_type ≠ "Constant" then
            cast_fold_aux fuel (idx + 1) g to_del folded
          else
            let (shape, data0) := constant_to_list pre_node
            let data_type := (node.attrs.headD default).i
            match castConvert data_type data0 with
            | Except.error e => Except.error e
            | Except.ok data =>
              let tname := (pre_node.attrs.headD default).name
              let tensor := match shape with
                | PyShape.scalar => make_tensor tname data_type [] data
                | PyShape.dims l => make_tensor tname data_type l data
              let new_node := make_constant_node (node.output.getD 0 "")
                (node.output.getD 0 "") tensor
              let g := { g with node := g.node ++ [new_node] }
              let to_del := to_del ++ [pre_node, node]
              match graphRemoveValueOpt g
                  (find_value_by_name g (pre_node.output.getD 0 "")) with
              | Except.error e => Except.error e
              | Except.ok g =>
                match graphRemoveValueOpt g
                    (find_value_by_name g (node.output.getD 0 "")) with
                | Except.error e => Except.error e
                | Except.ok g => cast_fold_aux fuel (idx + 1) g to_del true
    else
      match deleteNodesLIFO g to_del with
      | Except.error e => Except.error e
      | Except.ok g => Except.ok (topological_sort g, folded)

/-- cast_constant_folding, constant_folding.py lines 186-245. -/
def cast_constant_folding (g : Graph) : Except String (Graph × Bool) :=
  cast_fold_aux (2 * g.node.length + 2) 0 g [] false

/-- reduceprod_constant_folding, lines 248-302: iteration body.  The
attribute loop binds `axes` from the attribute named axes and `keepdims` from
any other attribute; using either unbound raises NameError. -/
def reduceprod_fold_aux : Nat → Nat → Graph → List Node → Bool →
    Except String (Graph × Bool)
  | 0, _, _, _, _ => Except.error "fuel exhausted"
  | fuel + 1, idx, g, to_del, folded =>
    if h : idx < g.node.length then
      let node := g.node.get ⟨idx, h⟩
      if node.op_type ≠ "ReduceProd" then
        reduceprod_fold_aux fuel (idx + 1) g to_del folded
      else
        match find_node_by_output_name g (node.input.getD 0 "") with
        | none => Except.error "AttributeError: NoneType has no attribute op_type"
        | some pre_node =>
          if pre_node.op_type ≠ "Constant" then
            reduceprod_fold_aux fuel (idx + 1) g to_del folded
          else
            let (shape, data_set) := constant_to_list pre_node
            let tensor := (pre_node.attrs.headD default).t
            match npReshapeList data_set shape with
            | Except.error e => Except.error e
            | Except.ok nd =>
              match get_attribute_by_name node "axes",
                    (node.attrs.filter (fun a => a.name ≠ "axes")).getLast? with
              | none, _ => Except.error "NameError: name axes is not defined"
              | _, none => Except.error "NameError: name keepdims is not defined"
              | some axesAttr, some kdAttr =>
                let new_data := npProdReduce nd axesAttr.ints (kdAttr.i = 1)
                let new_tensor := make_tensor (node.output.getD 0 "")
                  tensor.data_type (get_shape new_data) (flatten_to_list new_data)
                let new_node := make_constant_node (node.output.getD 0 "")
                  (node.output.getD 0 "") new_tensor
                let to_del := to_del ++ [pre_node, node]
                let g := { g with node := g.node ++ [new_node] }
                let g := match find_value_by_name g (pre_node.output.getD 0 "") with
                  | some vi => { g with value_info := g.value_info.erase vi }
                  | none => g
                reduceprod_fold_aux fuel (idx + 1) g to_del true
    else
      match deleteNodesLIFO g to_del with
      | Except.error e => Except.error e
      | Except.ok g => Except.ok (topological_sort g, folded)

/-- reduceprod_constant_folding, constant_folding.py lines 248-302. -/
def reduceprod_constant_folding (g : Graph) : Except String (Graph × Bool) :=
  reduceprod_fold_aux (2 * g.node.length + 2) 0 g [] false

/-- reshape_constant_input_folding, lines 305-356: iteration body. -/
def reshape_fold_aux : Nat → Nat → Graph → List Node → Bool →
    Except String (Graph × Bool)
  | 0, _, _, _, _ => Except.error "fuel exhausted"
  | fuel + 1, idx, g, to_del, folded =>
    if h : idx < g.node.length then
      let node := g.node.get ⟨idx, h⟩
      if node.op_type ≠ "Reshape" then
        reshape_fold_aux fuel (idx + 1) g to_del folded
      else
        match find_node_by_output_name g (node.input.getD 0 ""),
              find_node_by_output_name g (node.input.getD 1 "") with
        | none, _ => Except.error "AttributeError: NoneType has no attribute op_type"
        | _, none => Except.error "AttributeError: NoneType has no attribute op_type"
        | some pre_data_node, some pre_shape_node =>
          if pre_data_node.op_type ≠ "Constant" ∨
              pre_shape_node.op_type ≠ "Constant" then
            reshape_fold_aux fuel (idx + 1) g to_del folded
          else if (find_nodes_by_input_name g
              (pre_data_node.output.getD 0 "")).length > 1 then
            reshape_fold_aux fuel (idx + 1) g to_del folded
          else if (find_nodes_by_input_name g
              (pre_shape_node.output.getD 0 "")).length > 1 then
            reshape_fold_aux fuel (idx + 1) g to_del folded
          else
            let data := constant_to_numpy pre_data_node
            let shapeVals := (constant_to_list pre_shape_node).2
            let shapeInts := shapeVals.map ratTrunc
            match npReshapeInfer data shapeInts with
            | Except.error e => Except.error e
            | Except.ok new_data =>
              let new_tensor := make_tensor (node.output.getD 0 "")
                ((pre_data_node.attrs.headD default).t.data_type)
                shapeInts (flatten_to_list new_data)
              let new_node := make_constant_node (node.output.getD 0 "")
                (node.output.getD 0 "") new_tensor
              let g := { g with node := g.node ++ [new_node] }
              let to_del := to_del ++ [node, pre_data_node, pre_shape_node]
              match graphRemoveValueOpt g
                  (find_value_by_name g (pre_data_node.output.getD 0 "")) with
              | Except.error e => Except.error e
              | Except.ok g =>
                match graphRemoveValueOpt g
                    (find_value_by_name g (pre_shape_node.output.getD 0 "")) with
                | Except.error e => Except.error e
                | Except.ok g => reshape_fold_aux fuel (idx + 1) g to_del true
    else
      match deleteNodesLIFO g to_del with
      | Except.error e => Except.error e
      | Except.ok g => Except.ok (topological_sort g, folded)

/-- reshape_constant_input_folding, constant_folding.py lines 305-356. -/
def reshape_constant_input_folding (g : Graph) : Except String (Graph × Bool) :=
  reshape_fold_aux (2 * g.node.length + 2) 0 g [] false

/-- The per-input validity loop of concat_constant_folding, lines 368-377:
an input with more than one consumer, or produced by a non-Constant node,
makes the Concat invalid (checked in that order; a missing producer raises
when its op_type is read). -/
def concatCheckInputs (g : Graph) : List String → Except String Bool
  | [] => Except.ok true
  | name :: rest =>
    let input_node := find_node_by_output_name g name
    if (find_nodes_by_input_name g name).length > 1 then Except.ok false
    else
      match input_node with
      | none => Except.error "AttributeError: NoneType has no attribute op_type"
      | some n =>
        if n.op_type ≠ "Constant" then Except.ok false
        else concatCheckInputs g rest

/-- The data-gathering loop of concat_constant_folding, lines 382-390:
returns the reshaped input arrays, the input constant nodes scheduled for
deletion, and the last visited input node (whose dtype the source reads after
the loop through the leaked loop variable). -/
def concatGatherInputs (g : Graph) : List String →
    Except String (List NDArray × List Node × Option Node)
  | [] => Except.ok ([], [], none)
  | name :: rest =>
    match find_node_by_output_name g name with
    | none => Except.error "AttributeError: NoneType has no attribute op_type"
    | some input_node =>
      let (s, d) := constant_to_list input_node
      match npReshapeList d s with
      | Except.error e => Except.error e
      | Except.ok nd =>
        match concatGatherInputs g rest with
        | Except.error e => Except.error e
        | Except.ok (nds, dels, lastN) =>
          Except.ok (nd :: nds, input_node :: dels,
            match lastN with | none => some input_node | some m => some m)

/-- The per-input value_info removal loop of concat_constant_folding,
lines 402-404. -/
def concatRemoveValues (g : Graph) : List String → Except String Graph
  | [] => Except.ok g
  | name :: rest =>
    match graphRemoveValueOpt g (find_value_by_name g name) with
    | Except.error e => Except.error e
    | Except.ok g2 => concatRemoveValues g2 rest

/-- concat_constant_folding, lines 359-412: iteration body. -/
def concat_fold_aux : Nat → Nat → Graph → List Node → Bool →
    Except String (Graph × Bool)
  | 0, _, _, _, _ => Except.error "fuel exhausted"
  | fuel + 1, idx, g, to_del, folded =>
    if h : idx < g.node.length then
      let node := g.node.get ⟨idx, h⟩
      if node.op_type ≠ "Concat" then
        concat_fold_aux fuel (idx + 1) g to_del folded
      else
        match concatCheckInputs g node.input with
        | Except.error e => Except.error e
        | Except.ok false => concat_fold_aux fuel (idx + 1) g to_del folded
        | Except.ok true =>
          match concatGatherInputs g node.input with
          | Except.error e => Except.error e
          | Except.ok (nds, inputDels, lastN) =>
            match npConcatList nds ((node.attrs.headD default).i) with
            | none => Except.error "ValueError: concatenate shape mismatch"
            | some concat_data =>
              let dtype := match lastN with
                | none => 1
                | some n => (n.attrs.headD default).t.data_type
              let new_node := list_to_constant (node.output.getD 0 "")
                (get_shape concat_data) (flatten_to_list concat_data) dtype
              let g := { g with node := g.node ++ [new_node] }
              let to_del := to_del ++ inputDels ++ [node]
              match concatRemoveValues g node.input with
              | Except.error e => Except.error e
              | Except.ok g => concat_fold_aux fuel (idx + 1) g to_del true
    else
      match deleteNodesLIFO g to_del with
      | Except.error e => Except.error e
      | Except.ok g => Except.ok (topological_sort g, folded)

/-- concat_constant_folding, constant_folding.py lines 359-412. -/
def concat_constant_folding (g : Graph) : Except String (Graph × Bool) :=
  concat_fold_aux (2 * g.node.length + 2) 0 g [] false

/-- transpose_constant_folding, lines 415-461: iteration body.  Note that the
source only sets `folded = True` inside the final deletion loop, so the
function reports a fold exactly when the deletion list is nonempty. -/
def transpose_fold_aux : Nat → Nat → Graph → List Node →
    Except String (Graph × Bool)
  | 0, _, _, _ => Except.error "fuel exhausted"
  | fuel + 1, idx, g, to_del =>
    if h : idx < g.node.length then
      let node := g.node.get ⟨idx, h⟩
      if node.op_type ≠ "Transpose" then
        transpose_fold_aux fuel (idx + 1) g to_del
      else
        match find_node_by_output_name g (node.input.getD 0 "") with
        | none => Except.error "AttributeError: NoneType has no attribute op_type"
        | some pre_node =>
          if pre_node.op_type ≠ "Constant" then
            transpose_fold_aux fuel (idx + 1) g to_del
          else
            let (shape, data) := constant_to_list pre_node
            match npReshapeList data shape with
            | Except.error e => Except.error e
            | Except.ok np_data =>
              let permutation := (node.attrs.headD default).ints
              let new_data := npTranspose np_data (permutation.map Int.toNat)
              let dtype := (pre_node.attrs.headD default).t.data_type
              let new_node := list_to_constant (node.output.getD 0 "")
                (ndShapeInt new_data) new_data.data dtype
              let g := { g with node := g.node ++ [new_node] }
              let to_del := to_del ++ [node, pre_node]
              match graphRemoveValueOpt g
                  (find_value_by_name g (node.input.getD 0 "")) with
              | Except.error e => Except.error e
              | Except.ok g =>
                match graphRemoveValueOpt g
                    (find_value_by_name g (node.output.getD 0 "")) with
                | Except.error e => Except.error e
                | Except.ok g =>
                  let new_val_info := make_tensor_value_info
                    (node.output.getD 0 "") dtype (ndShapeInt new_data)
                  let g := { g with value_info := g.value_info ++ [new_val_info] }
                  transpose_fold_aux fuel (idx + 1) g to_del
    else
      match deleteNodesLIFO g to_del with
      | Except.error e => Except.error e
      | Except.ok g => Except.ok (topological_sort g, ¬ to_del.isEmpty)

/-- transpose_constant_folding, constant_folding.py lines 415-461. -/
def transpose_constant_folding (g : Graph) : Except String (Graph × Bool) :=
  transpose_fold_aux (2 * g.node.length + 2) 0 g []

/-- unsqueeze_constant_folding1, lines 464-513: iteration body.  This is the
dict-registered Unsqueeze evaluator (the legacy unsqueeze_constant_folding at
lines 100-142 walks a separate wrapper structure and is not registered). -/
def unsqueeze_fold_aux : Nat → Nat → Graph → List Node → Bool →
    Except String (Graph × Bool)
  | 0, _, _, _, _ => Except.error "fuel exhausted"
  | fuel + 1, idx, g, to_del, folded =>
    if h : idx < g.node.length then
      let node := g.node.get ⟨idx, h⟩
      if node.op_type ≠ "Unsqueeze" then
        unsqueeze_fold_aux fuel (idx + 1) g to_del folded
      else
        match find_node_by_output_name g (node.input.getD 0 "") with
        | none => Except.error "AttributeError: NoneType has no attribute op_type"
        | some pre_node =>
          if pre_node.op_type ≠ "Constant" then
            unsqueeze_fold_aux fuel (idx + 1) g to_del folded
          else
            let (shape, data) := constant_to_list pre_node
            match (match shape with
              | PyShape.scalar => Except.ok (⟨[], [data.headD 0]⟩ : NDArray)
              | PyShape.dims _ => npReshapeList data shape) with
            | Except.error e => Except.error e
            | Except.ok np_data0 =>
              let axes := sortInts (node.attrs.headD default).ints
              let np_data := axes.foldl (fun a d => npExpandDims a d) np_data0
              let dtype := (pre_node.attrs.headD default).t.data_type
              let new_node := list_to_constant (node.output.getD 0 "")
                (ndShapeInt np_data) np_data.data dtype
              let g := { g with node := g.node ++ [new_node] }
              let to_del := to_del ++ [node, pre_node]
              match graphRemoveValueOpt g
                  (find_value_by_name g (node.input.getD 0 "")) with
              | Except.error e => Except.error e
              | Except.ok g =>
                match graphRemoveValueOpt g
                    (find_value_by_name g (node.output.getD 0 "")) with
                | Except.error e => Except.error e
                | Except.ok g =>
                  let new_val_info := make_tensor_value_info
                    (node.output.getD 0 "") dtype (ndShapeInt np_data)
                  let g := { g with value_info := g.value_info ++ [new_val_info] }
                  unsqueeze_fold_aux fuel (idx + 1) g to_del true
    else
      match deleteNodesLIFO g to_del with
      | Except.error e => Except.error e
      | Except.ok g => Except.ok (topological_sort g, folded)

/-- unsqueeze_constant_folding1, constant_folding.py lines 464-513. -/
def unsqueeze_constant_folding1 (g : Graph) : Except String (Graph × Bool) :=
  unsqueeze_fold_aux (2 * g.node.length + 2) 0 g [] false

/-- gather_constant_folding, lines 516-570: iteration body.  A scalar-shaped
index tensor is collapsed to a bare number before np.take, so the gathered
axis is dropped rather than kept at size 1. -/
def gather_fold_aux : Nat → Nat → Graph → List Node → Bool →
    Except String (Graph × Bool)
  | 0, _, _, _, _ => Except.error "fuel exhausted"
  | fuel + 1, idx, g, to_del, folded =>
    if h : idx < g.node.length then
      let node := g.node.get ⟨idx, h⟩
      if node.op_type ≠ "Gather" then
        gather_fold_aux fuel (idx + 1) g to_del folded
      else
        match find_node_by_output_name g (node.input.getD 0 ""),
              find_node_by_output_name g (node.input.getD 1 "") with
        | none, _ => Except.error "AttributeError: NoneType has no attribute op_type"
        | _, none => Except.error "AttributeError: NoneType has no attribute op_type"
        | some pre_data_node, some pre_indices_node =>
          if pre_data_node.op_type ≠ "Constant" ∨
              pre_indices_node.op_type ≠ "Constant" then
            gather_fold_aux fuel (idx + 1) g to_del folded
          else
            let (shape, data) := constant_to_list pre_data_node
            let (indice_shape, indices) := constant_to_list pre_indices_node
            match npReshapeList data shape with
            | Except.error e => Except.error e
            | Except.ok np_data =>
              let axis0 := (node.attrs.headD default).i
              let r := np_data.shape.length
              let axis := (if axis0 < 0 then axis0 + (r : Int) else axis0).toNat
              let new_data := match indice_shape with
                | PyShape.scalar =>
                  npTake np_data [] [ratTrunc (indices.headD 0)] axis
                | PyShape.dims l =>
                  npTake np_data (l.map Int.toNat) (indices.map ratTrunc) axis
              let dtype := (pre_data_node.attrs.headD default).t.data_type
              let new_node := list_to_constant (node.output.getD 0 "")
                (ndShapeInt new_data) new_data.data dtype
              let to_del := to_del ++ [node, pre_data_node, pre_indices_node]
              let g := { g with node := g.node ++ [new_node] }
              match graphRemoveValueOpt g
                  (find_value_by_name g (node.input.getD 0 "")) with
              | Except.error e => Except.error e
              | Except.ok g =>
                match graphRemoveValueOpt g
                    (find_value_by_name g (node.input.getD 1 "")) with
                | Except.error e => Except.error e
                | Except.ok g =>
                  match graphRemoveValueOpt g
                      (find_value_by_name g (node.output.getD 0 "")) with
                  | Except.error e => Except.error e
                  | Except.ok g =>
                    let new_val_info := make_tensor_value_info
                      (node.output.getD 0 "") dtype (ndShapeInt new_data)
                    let g := { g with value_info := g.value_info ++ [new_val_info] }
                    gather_fold_aux fuel (idx + 1) g to_del true
    else
      match deleteNodesLIFO g to_del with
      | Except.error e => Except.error e
      | Except.ok g => Except.ok (topological_sort g, folded)

/-- gather_constant_folding, constant_folding.py lines 516-570. -/
def gather_constant_folding (g : Graph) : Except String (Graph × Bool) :=
  gather_fold_aux (2 * g.node.length + 2) 0 g [] false

/-- add_constant_folding, lines 573-620: iteration body.  Both operands must
be Constants whose outputs have exactly one consumer; the data lists are
reshaped to their declared shapes and added with numpy broadcasting.  Note
there is no single-element special case here: the emitted dims are always
`new_data.shape` (unlike Sub/Mul/Div, which special-case two scalar-sentinel
operands to emit empty dims). -/
def add_fold_aux : Nat → Nat → Graph → List Node → Bool →
    Except String (Graph × Bool)
  | 0, _, _, _, _ => Except.error "fuel exhausted"
  | fuel + 1, idx, g, to_del, folded =>
    if h : idx < g.node.length then
      let node := g.node.get ⟨idx, h⟩
      if node.op_type ≠ "Add" then add_fold_aux fuel (idx + 1) g to_del folded
      else
        match find_node_by_output_name g (node.input.getD 0 ""),
              find_node_by_output_name g (node.input.getD 1 "") with
        | none, _ => add_fold_aux fuel (idx + 1) g to_del folded
        | _, none => add_fold_aux fuel (idx + 1) g to_del folded
        | some pre_node_1, some pre_node_2 =>
          if pre_node_1.op_type ≠ "Constant" ∨ pre_node_2.op_type ≠ "Constant" then
            add_fold_aux fuel (idx + 1) g to_del folded
          else if (find_nodes_by_input_name g
              (pre_node_1.output.getD 0 "")).length ≠ 1 then
            add_fold_aux fuel (idx + 1) g to_del folded
          else if (find_nodes_by_input_name g
              (pre_node_2.output.getD 0 "")).length ≠ 1 then
            add_fold_aux fuel (idx + 1) g to_del folded
          else
            let (shape1, data1) := constant_to_list pre_node_1
            let (shape2, data2) := constant_to_list pre_node_2
            match npReshapeList data1 shape1, npReshapeList data2 shape2 with
            | Except.error e, _ => Except.error e
            | _, Except.error e => Except.error e
            | Except.ok np_data1, Except.ok np_data2 =>
              match npBinop qAdd np_data1 np_data2 with
              | none => Except.error "cannot broadcast and add two data sets"
              | some new_data =>
                let new_node := list_to_constant (node.output.getD 0 "")
                  (ndShapeInt new_data) new_data.data
                  ((pre_node_1.attrs.headD default).t.data_type)
                let g := { g with node := g.node ++ [new_node] }
                let to_del := to_del ++ [node, pre_node_1, pre_node_2]
                match graphRemoveValueOpt g
                    (find_value_by_name g (pre_node_1.output.getD 0 "")) with
                | Except.error e => Except.error e
                | Except.ok g =>
                  match graphRemoveValueOpt g
                      (find_value_by_name g (pre_node_2.output.getD 0 "")) with
                  | Except.error e => Except.error e
                  | Except.ok g => add_fold_aux fuel (idx + 1) g to_del true
    else
      match deleteNodesLIFO g to_del with
      | Except.error e => Except.error e
      | Except.ok g => Except.ok (topological_sort g, folded)

/-- add_constant_folding, constant_folding.py lines 573-620. -/
def add_constant_folding (g : Graph) : Except String (Graph × Bool) :=
  add_fold_aux (2 * g.node.length + 2) 0 g [] false

/-- sqrt_constant_folding, lines 623-665: iteration body.  The result dtype
is read from the *output* Value record (missing record raises); the tensor is
built with `dims=shape`, which for a scalar-sentinel shape passes the bare
integer 1 to make_tensor and raises TypeError. -/
def sqrt_fold_aux : Nat → Nat → Graph → List Node → Bool →
    Except String (Graph × Bool)
  | 0, _, _, _, _ => Except.error "fuel exhausted"
  | fuel + 1, idx, g, to_del, folded =>
    if h : idx < g.node.length then
      let node := g.node.get ⟨idx, h⟩
      if node.op_type ≠ "Sqrt" then sqrt_fold_aux fuel (idx + 1) g to_del folded
      else
        match find_node_by_output_name g (node.input.getD 0 "") with
        | none => Except.error "AttributeError: NoneType has no attribute op_type"
        | some pre_node =>
          if pre_node.op_type ≠ "Constant" then
            sqrt_fold_aux fuel (idx + 1) g to_del folded
          else
            let (shape, data) := constant_to_list pre_node
            match npReshapeList data shape with
            | Except.error e => Except.error e
            | Except.ok nd =>
              let np_data : NDArray := ⟨nd.shape, nd.data.map ratSqrt⟩
              match find_value_by_name g (node.output.getD 0 "") with
              | none => Except.error "AttributeError: NoneType has no attribute type"
              | some output_val_info =>
                let input_val_info := find_value_by_name g (node.input.getD 0 "")
                let data_type := output_val_info.elem_type
                match shape with
                | PyShape.scalar => Except.error "TypeError: int object is not iterable"
                | PyShape.dims dimsl =>
                  let new_tensor := make_tensor (node.output.getD 0 "" ++ "_data")
                    data_type dimsl np_data.data
                  let new_node := make_constant_node (node.output.getD 0 "")
                    (node.output.getD 0 "") new_tensor
                  match graphRemoveValueOpt g input_val_info with
                  | Except.error e => Except.error e
                  | Except.ok g =>
                    let to_del := to_del ++ [pre_node, node]
                    let g := { g with node := g.node ++ [new_node] }
                    sqrt_fold_aux fuel (idx + 1) g to_del true
    else
      match deleteNodesLIFO g to_del with
      | Except.error e => Except.error e
      | Except.ok g => Except.ok (topological_sort g, folded)

/-- sqrt_constant_folding, constant_folding.py lines 623-665. -/
def sqrt_constant_folding (g : Graph) : Except String (Graph × Bool) :=
  sqrt_fold_aux (2 * g.node.length + 2) 0 g [] false

/-- The clamp of reciprocal_constant_folding line 680: an element is kept only
when its magnitude strictly exceeds 1e-8, otherwise it is replaced by the
constant +1e-8, discarding its sign. -/
def reciprocalClamp (x : Rat) : Rat :=
  if ratAbs x > mkRat 1 100000000 then x else mkRat 1 100000000

/-- reciprocal_constant_folding, lines 668-713: iteration body. -/
def reciprocal_fold_aux : Nat → Nat → Graph → List Node → Bool →
    Except String (Graph × Bool)
  | 0, _, _, _, _ => Except.error "fuel exhausted"
  | fuel + 1, idx, g, to_del, folded =>
    if h : idx < g.node.length then
      let node := g.node.get ⟨idx, h⟩
      if node.op_type ≠ "Reciprocal" then
        reciprocal_fold_aux fuel (idx + 1) g to_del folded
      else
        match find_node_by_output_name g (node.input.getD 0 "") with
        | none => Except.error "AttributeError: NoneType has no attribute op_type"
        | some pre_node =>
          if pre_node.op_type ≠ "Constant" then
            reciprocal_fold_aux fuel (idx + 1) g to_del folded
          else
            let (shape, data0) := constant_to_list pre_node
            let data := data0.map reciprocalClamp
            match npReshapeList data shape with
            | Except.error e => Except.error e
            | Except.ok nd =>
              let np_data : NDArray := ⟨nd.shape, nd.data.map qInv⟩
              let input_val_info := find_value_by_name g (node.input.getD 0 "")
              match find_value_by_name g (node.output.getD 0 "") with
              | none => Except.error "AttributeError: NoneType has no attribute type"
              | some output_val_info =>
                let data_type := output_val_info.elem_type
                match shape with
                | PyShape.scalar => Except.error "TypeError: int object is not iterable"
                | PyShape.dims dimsl =>
                  let new_tensor := make_tensor (node.output.getD 0 "" ++ "_data")
                    data_type dimsl np_data.data
                  let new_node := make_constant_node (node.output.getD 0 "")
                    (node.output.getD 0 "") new_tensor
                  let to_del := to_del ++ [node, pre_node]
                  let g := { g with node := g.node ++ [new_node] }
                  match graphRemoveValueOpt g input_val_info with
                  | Except.error e => Except.error e
                  | Except.ok g => reciprocal_fold_aux fuel (idx + 1) g to_del true
    else
      match deleteNodesLIFO g to_del with
      | Except.error e => Except.error e
      | Except.ok g => Except.ok (topological_sort g, folded)

/-- reciprocal_constant_folding, constant_folding.py lines 668-713. -/
def reciprocal_constant_folding (g : Graph) : Except String (Graph × Bool) :=
  reciprocal_fold_aux (2 * g.node.length + 2) 0 g [] false

/-- mul_constant_folding, lines 716-781: iteration body.  After the numpy
multiply, two scalar-sentinel operand shapes are special-cased to emit empty
dims ("Special shape for single element", line 749). -/
def mul_fold_aux : Nat → Nat → Graph → List Node → Bool →
    Except String (Graph × Bool)
  | 0, _, _, _, _ => Except.error "fuel exhausted"
  | fuel + 1, idx, g, to_del, folded =>
    if h : idx < g.node.length then
      let node := g.node.get ⟨idx, h⟩
      if node.op_type ≠ "Mul" then mul_fold_aux fuel (idx + 1) g to_del folded
      else
        match find_node_by_output_name g (node.input.getD 0 ""),
              find_node_by_output_name g (node.input.getD 1 "") with
        | none, _ => Except.error "AttributeError: NoneType has no attribute op_type"
        | _, none => Except.error "AttributeError: NoneType has no attribute op_type"
        | some pre_node_1, some pre_node_2 =>
          if pre_node_1.op_type ≠ "Constant" ∨ pre_node_2.op_type ≠ "Constant" then
            mul_fold_aux fuel (idx + 1) g to_del folded
          else
            match find_value_by_name g (node.input.getD 0 ""),
                  find_value_by_name g (node.input.getD 1 "") with
            | none, _ => mul_fold_aux fuel (idx + 1) g to_del folded
            | _, none => mul_fold_aux fuel (idx + 1) g to_del folded
            | some pre_value_info1, some pre_value_info2 =>
              if (find_nodes_by_input_name g pre_value_info1.name).length > 1 then
                mul_fold_aux fuel (idx + 1) g to_del folded
              else if (find_nodes_by_input_name g pre_value_info2.name).length > 1 then
                mul_fold_aux fuel (idx + 1) g to_del folded
              else
                let (shape1, data1) := constant_to_list pre_node_1
                let (shape2, data2) := constant_to_list pre_node_2
                match npReshapeList data1 shape1, npReshapeList data2 shape2 with
                | Except.error e, _ => Except.error e
                | _, Except.error e => Except.error e
                | Except.ok np_data1, Except.ok np_data2 =>
                  match npBinop qMul np_data1 np_data2 with
                  | none => Except.error "can not broadcast and multiply two data sets"
                  | some new_data =>
                    let new_shape :=
                      if shape1 = PyShape.scalar ∧ shape2 = PyShape.scalar then
                        ([] : List Int)
                      else ndShapeInt new_data
                    let new_tensor := make_tensor (node.output.getD 0 "" ++ "_data")
                      ((pre_node_1.attrs.headD default).t.data_type)
                      new_shape new_data.data
                    let new_node := make_constant_node (node.output.getD 0 "")
                      (node.output.getD 0 "") new_tensor
                    let to_del := to_del ++ [node, pre_node_1, pre_node_2]
                    let g := { g with node := g.node ++ [new_node] }
                    match graphRemoveValueOpt g (some pre_value_info1) with
                    | Except.error e => Except.error e
                    | Except.ok g =>
                      match graphRemoveValueOpt g (some pre_value_info2) with
                      | Except.error e => Except.error e
                      | Except.ok g => mul_fold_aux fuel (idx + 1) g to_del true
    else
      match deleteNodesLIFO g to_del with
      | Except.error e => Except.error e
      | Except.ok g => Except.ok (topological_sort g, folded)

/-- mul_constant_folding, constant_folding.py lines 716-781. -/
def mul_constant_folding (g : Graph) : Except String (Graph × Bool) :=
  mul_fold_aux (2 * g.node.length + 2) 0 g [] false

/-- div_constant_folding, lines 784-849: iteration body (structurally the
mul evaluator with np.divide, including the scalar-sentinel special case and
the copy-pasted error message). -/
def div_fold_aux : Nat → Nat → Graph → List Node → Bool →
    Except String (Graph × Bool)
  | 0, _, _, _, _ => Except.error "fuel exhausted"
  | fuel + 1, idx, g, to_del, folded =>
    if h : idx < g.node.length then
      let node := g.node.get ⟨idx, h⟩
      if node.op_type ≠ "Div" then div_fold_aux fuel (idx + 1) g to_del folded
      else
        match find_node_by_output_name g (node.input.getD 0 ""),
              find_node_by_output_name g (node.input.getD 1 "") with
        | none, _ => Except.error "AttributeError: NoneType has no attribute op_type"
        | _, none => Except.error "AttributeError: NoneType has no attribute op_type"
        | some pre_node_1, some pre_node_2 =>
          if pre_node_1.op_type ≠ "Constant" ∨ pre_node_2.op_type ≠ "Constant" then
            div_fold_aux fuel (idx + 1) g to_del folded
          else
            match find_value_by_name g (node.input.getD 0 ""),
                  find_value_by_name g (node.input.getD 1 "") with
            | none, _ => div_fold_aux fuel (idx + 1) g to_del folded
            | _, none => div_fold_aux fuel (idx + 1) g to_del folded
            | some pre_value_info1, some pre_value_info2 =>
              if (find_nodes_by_input_name g pre_value_info1.name).length > 1 then
                div_fold_aux fuel (idx + 1) g to_del folded
              else if (find_nodes_by_input_name g pre_value_info2.name).length > 1 then
                div_fold_aux fuel (idx + 1) g to_del folded
              else
                let (shape1, data1) := constant_to_list pre_node_1
                let (shape2, data2) := constant_to_list pre_node_2
                match npReshapeList data1 shape1, npReshapeList data2 shape2 with
                | Except.error e, _ => Except.error e
                | _, Except.error e => Except.error e
                | Except.ok np_data1, Except.ok np_data2 =>
                  match npBinop qDiv np_data1 np_data2 with
                  | none => Except.error "can not broadcast and multiply two data sets"
                  | some new_data =>
                    let new_shape :=
                      if shape1 = PyShape.scalar ∧ shape2 = PyShape.scalar then
                        ([] : List Int)
                      else ndShapeInt new_data
                    let new_tensor := make_tensor (node.output.getD 0 "" ++ "_data")
                      ((pre_node_1.attrs.headD default).t.data_type)
                      new_shape new_data.data
                    let new_node := make_constant_node (node.output.getD 0 "")
                      (node.output.getD 0 "") new_tensor
                    let to_del := to_del ++ [node, pre_node_1, pre_node_2]
                    let g := { g with node := g.node ++ [new_node] }
                    match graphRemoveValueOpt g (some pre_value_info1) with
                    | Except.error e => Except.error e
                    | Except.ok g =>
                      match graphRemoveValueOpt g (some pre_value_info2) with
                      | Except.error e => Except.error e
                      | Except.ok g => div_fold_aux fuel (idx + 1) g to_del true
    else
      match deleteNodesLIFO g to_del with
      | Except.error e => Except.error e
      | Except.ok g => Except.ok (topological_sort g, folded)

/-- div_constant_folding, constant_folding.py lines 784-849. -/
def div_constant_folding (g : Graph) : Except String (Graph × Bool) :=
  div_fold_aux (2 * g.node.length + 2) 0 g [] false

/-- sub_constant_folding, lines 852-909: iteration body.  Unlike Add/Mul/Div,
the flat data lists are *not* reshaped to their declared shapes: np.subtract
is applied to the raw flat lists (line 876), so the result is the 1-D
broadcast of the flattened payloads and `new_data.shape` is its flat length.
The scalar-sentinel special case then replaces that with empty dims when both
input shapes are scalar. -/
def sub_fold_aux : Nat → Nat → Graph → List Node → Bool →
    Except String (Graph × Bool)
  | 0, _, _, _, _ => Except.error "fuel exhausted"
  | fuel + 1, idx, g, to_del, folded =>
    if h : idx < g.node.length then
      let node := g.node.get ⟨idx, h⟩
      if node.op_type ≠ "Sub" then sub_fold_aux fuel (idx + 1) g to_del folded
      else
        match find_node_by_output_name g (node.input.getD 0 ""),
              find_node_by_output_name g (node.input.getD 1 "") with
        | none, _ => Except.error "AttributeError: NoneType has no attribute op_type"
        | _, none => Except.error "AttributeError: NoneType has no attribute op_type"
        | some pre_node_1, some pre_node_2 =>
          if pre_node_1.op_type ≠ "Constant" then
            sub_fold_aux fuel (idx + 1) g to_del folded
          else if pre_node_2.op_type ≠ "Constant" then
            sub_fold_aux fuel (idx + 1) g to_del folded
          else
            let pre_val_info_1 := find_value_by_name g (node.input.getD 0 "")
            let pre_val_info_2 := find_value_by_name g (node.input.getD 1 "")
            if (find_nodes_by_input_name g (node.input.getD 0 "")).length > 1 then
              sub_fold_aux fuel (idx + 1) g to_del folded
            else if (find_nodes_by_input_name g (node.input.getD 1 "")).length > 1 then
              sub_fold_aux fuel (idx + 1) g to_del folded
            else
              let (shape1, data1) := constant_to_list pre_node_1
              let (shape2, data2) := constant_to_list pre_node_2
              match npBinop qSub
                  ⟨[data1.length], data1⟩ ⟨[data2.length], data2⟩ with
              | none => Except.error "ValueError: operands could not be broadcast together"
              | some new_data =>
                let new_shape :=
                  if shape1 = PyShape.scalar ∧ shape2 = PyShape.scalar then
                    ([] : List Int)
                  else ndShapeInt new_data
                let new_tensor := make_tensor (node.output.getD 0 "" ++ "_data")
                  ((pre_node_1.attrs.headD default).t.data_type)
                  new_shape new_data.data
                let new_node := make_constant_node (node.output.getD 0 "")
                  (node.output.getD 0 "") new_tensor
                let g := { g with node := g.node ++ [new_node] }
                let to_del := to_del ++ [node, pre_node_1, pre_node_2]
                match graphRemoveValueOpt g pre_val_info_1 with
                | Except.error e => Except.error e
                | Except.ok g =>
                  match graphRemoveValueOpt g pre_val_info_2 with
                  | Except.error e => Except.error e
                  | Except.ok g => sub_fold_aux fuel (idx + 1) g to_del true
    else
      match deleteNodesLIFO g to_del with
      | Except.error e => Except.error e
      | Except.ok g => Except.ok (topological_sort g, folded)

/-- sub_constant_folding, constant_folding.py lines 852-909. -/
def sub_constant_folding (g : Graph) : Except String (Graph × Bool) :=
  sub_fold_aux (2 * g.node.length + 2) 0 g [] false

/-- neg_constant_folding, lines 912-948: iteration body.  The tensor is built
with `dims=shape`, which for a scalar-sentinel shape passes the bare integer
1 to make_tensor and raises TypeError. -/
def neg_fold_aux : Nat → Nat → Graph → List Node → Bool →
    Except String (Graph × Bool)
  | 0, _, _, _, _ => Except.error "fuel exhausted"
  | fuel + 1, idx, g, to_del, folded =>
    if h : idx < g.node.length then
      let node := g.node.get ⟨idx, h⟩
      if node.op_type ≠ "Neg" then neg_fold_aux fuel (idx + 1) g to_del folded
      else
        match find_node_by_output_name g (node.input.getD 0 "") with
        | none => neg_fold_aux fuel (idx + 1) g to_del folded
        | some pre_node =>
          if pre_node.op_type ≠ "Constant" then
            neg_fold_aux fuel (idx + 1) g to_del folded
          else
            let (shape, data_list) := constant_to_list pre_node
            let new_data_list := data_list.map (fun num => -num)
            match shape with
            | PyShape.scalar => Except.error "TypeError: int object is not iterable"
            | PyShape.dims dimsl =>
              let new_tensor := make_tensor (pre_node.name ++ "_neg_tensor")
                ((pre_node.attrs.headD default).t.data_type) dimsl new_data_list
              let new_node := make_constant_node (node.output.getD 0 "")
                (node.output.getD 0 "") new_tensor
              let g := { g with node := g.node ++ [new_node] }
              let to_del := to_del ++ [pre_node, node]
              match graphRemoveValueOpt g
                  (find_value_by_name g (node.input.getD 0 "")) with
              | Except.error e => Except.error e
              | Except.ok g => neg_fold_aux fuel (idx + 1) g to_del true
    else
      match deleteNodesLIFO g to_del with
      | Except.error e => Except.error e
      | Except.ok g => Except.ok (topological_sort g, folded)

/-- neg_constant_folding, constant_folding.py lines 912-948. -/
def neg_constant_folding (g : Graph) : Except String (Graph × Bool) :=
  neg_fold_aux (2 * g.node.length + 2) 0 g [] false

/-- floor_constant_folding, lines 951-994: iteration body.  A scalar-sentinel
input shape collapses to empty output dims; a missing input Value record is
tolerated (lines 985-987). -/
def floor_fold_aux : Nat → Nat → Graph → List Node → Bool →
    Except String (Graph × Bool)
  | 0, _, _, _, _ => Except.error "fuel exhausted"
  | fuel + 1, idx, g, to_del, folded =>
    if h : idx < g.node.length then
      let node := g.node.get ⟨idx, h⟩
      if node.op_type ≠ "Floor" then floor_fold_aux fuel (idx + 1) g to_del folded
      else
        match find_node_by_output_name g (node.input.getD 0 "") with
        | none => floor_fold_aux fuel (idx + 1) g to_del folded
        | some pre_node =>
          if pre_node.op_type ≠ "Constant" then
            floor_fold_aux fuel (idx + 1) g to_del folded
          else
            let (shape, data) := constant_to_list pre_node
            let new_data := data.map (fun x => ((ratFloor x : Int) : Rat))
            let new_shape := match shape with
              | PyShape.scalar => ([] : List Int)
              | PyShape.dims l => l
            let new_tensor := make_tensor (node.output.getD 0 "" ++ "_data")
              ((pre_node.attrs.headD default).t.data_type) new_shape new_data
            let new_node := make_constant_node (node.output.getD 0 "")
              (node.output.getD 0 "") new_tensor
            let g := { g with node := g.node ++ [new_node] }
            let to_del := to_del ++ [pre_node, node]
            let g := match find_value_by_name g (node.input.getD 0 "") with
              | some vi => { g with value_info := g.value_info.erase vi }
              | none => g
            floor_fold_aux fuel (idx + 1) g to_del true
    else
      match deleteNodesLIFO g to_del with
      | Except.error e => Except.error e
      | Except.ok g => Except.ok (topological_sort g, folded)

/-- floor_constant_folding, constant_folding.py lines 951-994. -/
def floor_constant_folding (g : Graph) : Except String (Graph × Bool) :=
  floor_fold_aux (2 * g.node.length + 2) 0 g [] false

/-- The constant_folding_nodes registry, lines 998-1015, as a dispatch on the
op kind (its keys are `constant_folding_node_keys`). -/
def run_registered_evaluator (op : String) (g : Graph) :
    Except String (Graph × Bool) :=
  if op = "Add" then add_constant_folding g
  else if op = "Cast" then cast_constant_folding g
  else if op = "Concat" then concat_constant_folding g
  else if op = "Div" then div_constant_folding g
  else if op = "Floor" then floor_constant_folding g
  else if op = "Gather" then gather_constant_folding g
  else if op = "Mul" then mul_constant_folding g
  else if op = "Reciprocal" then reciprocal_constant_folding g
  else if op = "ReduceProd" then reduceprod_constant_folding g
  else if op = "Reshape" then reshape_constant_input_folding g
  else if op = "Slice" then slice_constant_folding g
  else if op = "Sqrt" then sqrt_constant_folding g
  else if op = "Transpose" then transpose_constant_folding g
  else if op = "Unsqueeze" then unsqueeze_constant_folding1 g
  else if op = "Sub" then sub_constant_folding g
  else if op = "Neg" then neg_constant_folding g
  else Except.error "KeyError"

/-- The clone-creation loop of duplicate_constant_node, lines 68-89: for the
i-th foldable consumer, build a Constant clone named `<output>_dup_<i>`
carrying the *same* value tensor, a matching Value record, and rewire that
consumer's first matching input slot to the clone.  The consumer list was
captured before the loop, so each iteration rewires the captured node object
(Python mutates it in place inside the graph). -/
def dup_clone_aux (cnodeOut : String) (t : Tensor) (data_shape : List Int) :
    Nat → List Node → Graph → Except String Graph
  | _, [], g => Except.ok g
  | i, consumer :: rest, g =>
    let output_name := cnodeOut ++ "_dup_" ++ toString i
    let new_constant_node := make_constant_node output_name output_name t
    let new_val_info := make_tensor_value_info output_name t.data_type data_shape
    if consumer.input.contains cnodeOut then
      let input_ind := consumer.input.findIdx (fun s => s == cnodeOut)
      let consumer2 := { consumer with
        input := consumer.input.set input_ind output_name }
      let g := graphReplaceNode g consumer consumer2
      let g := { g with node := g.node ++ [new_constant_node],
                        value_info := g.value_info ++ [new_val_info] }
      dup_clone_aux cnodeOut t data_shape (i + 1) rest g
    else Except.error "ValueError: x not in list"

/-- duplicate_constant_node, lines 45-98: iteration body.  The Python `for`
walks the live node list by index while clones are appended at the end and a
fully-foldable shared constant is removed in place, shifting later elements
one position left under the running iterator. -/
def dup_aux : Nat → Nat → Graph → Except String Graph
  | 0, _, _ => Except.error "fuel exhausted"
  | fuel + 1, idx, g =>
    if h : idx < g.node.length then
      let node := g.node.get ⟨idx, h⟩
      if node.op_type ≠ "Constant" then dup_aux fuel (idx + 1) g
      else
        match find_value_by_name g (node.output.getD 0 "") with
        | none => Except.error "AttributeError: NoneType has no attribute type"
        | some output_val_info =>
          let data_shape := get_shape_from_value_info output_val_info
          let output_nodes := find_nodes_by_input_name g (node.output.getD 0 "")
          if output_nodes.length < 2 then dup_aux fuel (idx + 1) g
          else
            let foldable_output_nodes := output_nodes.filter (fun n =>
              constant_folding_node_keys.contains n.op_type)
            if foldable_output_nodes.isEmpty then dup_aux fuel (idx + 1) g
            else
              match dup_clone_aux (node.output.getD 0 "")
                  ((node.attrs.headD default).t) data_shape 0
                  foldable_output_nodes g with
              | Except.error e => Except.error e
              | Except.ok g =>
                if foldable_output_nodes.length = output_nodes.length then
                  match graphRemoveNode g node with
                  | Except.error e => Except.error e
                  | Except.ok g =>
                    match graphRemoveValueOpt g (some output_val_info) with
                    | Except.error e => Except.error e
                    | Except.ok g => dup_aux fuel (idx + 1) g
                else dup_aux fuel (idx + 1) g
    else Except.ok (topological_sort g)

/-- duplicate_constant_node, constant_folding.py lines 45-98. -/
def duplicate_constant_node (g : Graph) : Except String Graph :=
  dup_aux (g.node.length * (g.node.length + 2) + 2) 0 g

/-- The inner `for node in g.node` scan of constant_folding, lines 28-41: a
node whose op kind is registered and which passes the eligibility gate has
its evaluator invoked on the whole graph; a successful fold sets the flag.
The graph is mutated (and re-sorted) under the running iterator, so the scan
is index-based over the live list. -/
def constant_folding_pass : Nat → Nat → Graph → Bool →
    Except String (Graph × Bool)
  | 0, _, _, _ => Except.error "fuel exhausted"
  | fuel + 1, idx, g, keep_folding =>
    if h : idx < g.node.length then
      let node := g.node.get ⟨idx, h⟩
      if ¬ constant_folding_node_keys.contains node.op_type then
        constant_folding_pass fuel (idx + 1) g keep_folding
      else if ¬ are_all_inputs_Constant_with_one_child g node then
        constant_folding_pass fuel (idx + 1) g keep_folding
      else
        match run_registered_evaluator node.op_type g with
        | Except.error e => Except.error e
        | Except.ok (g2, b) =>
          constant_folding_pass fuel (idx + 1) g2 (keep_folding || b)
    else Except.ok (g, keep_folding)

/-- The `while keep_folding` loop of constant_folding, lines 24-42, with a
fuel bound on the number of full passes (the source loops unboundedly until a
pass folds nothing; every run proved below terminates within its fuel). -/
def constant_folding_loop : Nat → Graph → Bool → Except String (Graph × Bool)
  | 0, _, _ => Except.error "fuel exhausted"
  | fuel + 1, g, folded =>
    match constant_folding_pass (4 * g.node.length + 16) 0 g false with
    | Except.error e => Except.error e
    | Except.ok (g2, keep_folding) =>
      if keep_folding then constant_folding_loop fuel g2 true
      else Except.ok (g2, folded)

/-- constant_folding, constant_folding.py lines 21-42: the entry point.
Duplicates shared constants once, then drives full passes to a fixed point,
returning the mutated graph and whether anything folded. -/
def constant_folding (fuel : Nat) (g : Graph) : Except String (Graph × Bool) :=
  match duplicate_constant_node g with
  | Except.error e => Except.error e
  | Except.ok g2 => constant_folding_loop fuel g2 false

/-- Result projection: the graph of a successful run. -/
def okGraph (r : Except String (Graph × Bool)) : Option Graph :=
  match r with
  | Except.ok (g, _) => some g
  | Except.error _ => none

/-- Result projection: the folded flag of a successful run. -/
def okFolded (r : Except String (Graph × Bool)) : Option Bool :=
  match r with
  | Except.ok (_, b) => some b
  | Except.error _ => none

/-- Result projection: the message of a failed run. -/
def errMsg (r : Except String (Graph × Bool)) : Option String :=
  match r with
  | Except.ok _ => none
  | Except.error e => some e

/-- The tensor payload of the node producing value `name`, when that producer
exists and is a Constant. -/
def producerTensor (g : Graph) (name : String) : Option Tensor :=
  match find_node_by_output_name g name with
  | some n => if n.op_type = "Constant" then some (n.attrs.headD default).t
              else none
  | none => none

/-- Same, applied to a run result. -/
def resultProducerTensor (r : Except String (Graph × Bool)) (name : String) :
    Option Tensor :=
  (okGraph r).bind (fun g => producerTensor g name)

/-- A Constant node literal as the test graphs use it. -/
def constNode (out : String) (name : String) (dtype : Int) (dims : List Int)
    (vals : List Rat) : Node :=
  ⟨"Constant", name, [], [out], [⟨"value", 0, [], ⟨name ++ "_t", dtype, dims, vals⟩⟩]⟩

/-- Test graph for the Add scalar-sentinel case (claim C1): two rank-0
Constants feeding one Add node. -/
def addScalarG : Graph :=
  ⟨[constNode "c1" "C1" 1 [] [2], constNode "c2" "C2" 1 [] [3],
    ⟨"Add", "add0", ["c1", "c2"], ["s"], []⟩],
   [⟨"c1", 1, []⟩, ⟨"c2", 1, []⟩]⟩

/-- Test graph for the Mul scalar-sentinel case (claim C1): two rank-0
Constants feeding one Mul node. -/
def mulScalarG : Graph :=
  ⟨[constNode "c1" "C1" 1 [] [2], constNode "c2" "C2" 1 [] [3],
    ⟨"Mul", "mul0", ["c1", "c2"], ["p"], []⟩],
   [⟨"c1", 1, []⟩, ⟨"c2", 1, []⟩]⟩

/-- Test graph for Sub with two same-shape [2,3] constants (claim C4, the
spec's Add example transposed to Sub). -/
def subG : Graph :=
  ⟨[constNode "x" "X1" 1 [2, 3] [1, 1, 1, 2, 2, 2],
    constNode "y" "Y1" 1 [2, 3] [10, 10, 10, 20, 20, 20],
    ⟨"Sub", "sub0", ["x", "y"], ["d"], []⟩],
   [⟨"x", 1, [2, 3]⟩, ⟨"y", 1, [2, 3]⟩]⟩

/-- Test graph for Sub with broadcastable shapes [2,1] and [1,2] (claim C4). -/
def subBroadcastG : Graph :=
  ⟨[constNode "x" "X2" 1 [2, 1] [10, 20],
    constNode "y" "Y2" 1 [1, 2] [1, 2],
    ⟨"Sub", "sub1", ["x", "y"], ["d"], []⟩],
   [⟨"x", 1, [2, 1]⟩, ⟨"y", 1, [1, 2]⟩]⟩

/-- Test graph for Add on the spec's concrete [2,3] example (claim C4). -/
def addSpecG : Graph :=
  ⟨[constNode "x" "X3" 1 [2, 3] [1, 1, 1, 2, 2, 2],
    constNode "y" "Y3" 1 [2, 3] [10, 10, 10, 20, 20, 20],
    ⟨"Add", "add1", ["x", "y"], ["s"], []⟩],
   [⟨"x", 1, [2, 3]⟩, ⟨"y", 1, [2, 3]⟩]⟩

/-- Test graph for the single-consumer invariant (claim C2): constant A feeds
a Neg whose output n is consumed by both a Slice and a non-foldable Relu, and
an unrelated eligible Slice (constant B into S3) triggers the Slice
evaluator. -/
def sharedConsumerG : Graph :=
  ⟨[constNode "a" "A" 1 [2] [1, 2],
    ⟨"Neg", "N", ["a"], ["n"], []⟩,
    ⟨"Slice", "S1", ["n"], ["s1"],
      [⟨"starts", 0, [0], default⟩, ⟨"ends", 0, [1], default⟩,
       ⟨"axes", 0, [0], default⟩]⟩,
    ⟨"Relu", "X", ["n"], ["x"], []⟩,
    constNode "b" "B" 1 [2] [7, 8],
    ⟨"Slice", "S3", ["b"], ["s3"],
      [⟨"starts", 0, [0], default⟩, ⟨"ends", 0, [1], default⟩,
       ⟨"axes", 0, [0], default⟩]⟩],
   [⟨"a", 1, [2]⟩, ⟨"n", 1, [2]⟩, ⟨"b", 1, [2]⟩]⟩

/-- Test graph for idempotence (claim C3): constant A feeds a Neg whose
output is consumed by two Cast nodes.  The first call folds the Neg and then
stalls (the folded constant has two consumers); the second call's duplication
pre-pass splits it and both Casts fold. -/
def idemG : Graph :=
  ⟨[constNode "a" "A" 1 [2] [1, 2],
    ⟨"Neg", "N", ["a"], ["n"], []⟩,
    ⟨"Cast", "K1", ["n"], ["k1"], [⟨"to", 1, [], default⟩]⟩,
    ⟨"Cast", "K2", ["n"], ["k2"], [⟨"to", 1, [], default⟩]⟩],
   [⟨"a", 1, [2]⟩, ⟨"n", 1, [2]⟩, ⟨"k1", 1, [2]⟩, ⟨"k2", 1, [2]⟩]⟩

/-- The graph after one full constant-folding run on `idemG`. -/
def idemG1 : Graph :=
  (okGraph (constant_folding 8 idemG)).getD default

/-- Test graph for the duplication pre-pass skip (claim C5): two shared
constants in a row, each feeding two foldable Neg consumers.  Removing the
first shared constant shifts the second one under the running iterator. -/
def dupSkipG : Graph :=
  ⟨[constNode "c1" "C1" 1 [1] [5],
    constNode "c2" "C2" 1 [1] [6],
    ⟨"Neg", "N1", ["c1"], ["n1"], []⟩,
    ⟨"Neg", "N2", ["c1"], ["n2"], []⟩,
    ⟨"Neg", "M1", ["c2"], ["m1"], []⟩,
    ⟨"Neg", "M2", ["c2"], ["m2"], []⟩],
   [⟨"c1", 1, [1]⟩, ⟨"c2", 1, [1]⟩]⟩

/-- Test graph for duplication when one consumer is not foldable (claim C5):
the original constant must survive for the Relu consumer. -/
def dupMixedG : Graph :=
  ⟨[constNode "c1" "C1" 1 [1] [5],
    ⟨"Neg", "N1", ["c1"], ["n1"], []⟩,
    ⟨"Relu", "R1", ["c1"], ["r1"], []⟩],
   [⟨"c1", 1, [1]⟩]⟩

/-- Test graph for the Reciprocal sign question (claim C6): a single element
-1e-9, whose magnitude is below the 1e-8 threshold. -/
def recipNegG : Graph :=
  ⟨[constNode "c" "C" 1 [1] [mkRat (-1) 1000000000],
    ⟨"Reciprocal", "rec0", ["c"], ["r"], []⟩],
   [⟨"c", 1, [1]⟩, ⟨"r", 1, [1]⟩]⟩

/-- Test graph exercising every clamp case of Reciprocal (claim C6): the
spec's [0, 4] example plus small negative and positive elements and the
boundary value -1e-8. -/
def recipAllG : Graph :=
  ⟨[constNode "c" "C" 1 [5] [0, 4, mkRat (-1) 1000000000, mkRat (-1) 100000000,
     mkRat 1 1000000000],
    ⟨"Reciprocal", "rec1", ["c"], ["r"], []⟩],
   [⟨"c", 1, [5]⟩, ⟨"r", 1, [5]⟩]⟩

/-- Test graph family for Cast (claims C7): a [3] constant with fractional
values feeding a Cast whose `to` attribute carries dtype code `d`. -/
def castG (d : Int) : Graph :=
  ⟨[constNode "c" "C" 1 [3] [mkRat 5 2, mkRat (-7) 2, 3],
    ⟨"Cast", "cast0", ["c"], ["k"], [⟨"to", d, [], default⟩]⟩],
   [⟨"c", 1, [3]⟩, ⟨"k", 1, [3]⟩]⟩

/-- Test graph family for Cast over a scalar-sentinel constant (claim C10). -/
def castScalarG (d : Int) : Graph :=
  ⟨[constNode "c" "C" 1 [] [mkRat 7 2],
    ⟨"Cast", "cast1", ["c"], ["k"], [⟨"to", d, [], default⟩]⟩],
   [⟨"c", 1, []⟩, ⟨"k", 1, []⟩]⟩

/-- The state the fold engine reaches on `sharedConsumerG` after the Neg fold:
the folded constant (output n) is consumed by both the Slice S1 and the
non-foldable Relu X.  Written out literally so the Slice evaluator can be
applied to it directly. -/
def sliceSharedMidG : Graph :=
  ⟨[⟨"Constant", "n", [], ["n"],
      [⟨"value", 0, [], ⟨"A_neg_tensor", 1, [2], [-1, -2]⟩⟩]⟩,
    ⟨"Slice", "S1", ["n"], ["s1"],
      [⟨"starts", 0, [0], default⟩, ⟨"ends", 0, [1], default⟩,
       ⟨"axes", 0, [0], default⟩]⟩,
    ⟨"Relu", "X", ["n"], ["x"], []⟩,
    constNode "b" "B" 1 [2] [7, 8],
    ⟨"Slice", "S3", ["b"], ["s3"],
      [⟨"starts", 0, [0], default⟩, ⟨"ends", 0, [1], default⟩,
       ⟨"axes", 0, [0], default⟩]⟩],
   [⟨"n", 1, [2]⟩, ⟨"b", 1, [2]⟩]⟩

/-- C1: the claim says folding Mul and folding Add of two scalar-sentinel
constants each produce a scalar-sentinel (empty-dims) constant.  The Mul
evaluator does (its single-element special case, lines 749-753), but the Add
evaluator has no such special case (lines 593-607) and emits the
1-element-vector shape [1]: on two rank-0 constants 2 and 3 the folded Add
constant has dims [1], not []. -/
theorem add_mul_scalar_sentinel_shapes :
    (resultProducerTensor (add_constant_folding addScalarG) "s").map
      Tensor.dims = some [1] ∧
    (resultProducerTensor (add_constant_folding addScalarG) "s").map
      Tensor.vals = some [5] ∧
    (resultProducerTensor (mul_constant_folding mulScalarG) "p").map
      Tensor.dims = some [] ∧
    (resultProducerTensor (mul_constant_folding mulScalarG) "p").map
      Tensor.vals = some [6] := by
  decide

/-- C2: the claim says no evaluator invocation during the pass ever
reads-and-deletes a constant consumed by two or more nodes.  The Slice
evaluator never re-checks consumer counts: on `sliceSharedMidG` the constant
producing n has two consumers (Slice S1 and Relu X), yet one invocation of
slice_constant_folding folds S1 and deletes that constant; and the full pass
on `sharedConsumerG` (where an unrelated eligible Slice S3 triggers the
evaluator) terminates with the Relu X still consuming the now-producerless
value n — a dangling reference left by deleting a two-consumer constant. -/
theorem slice_deletes_shared_constant :
    (find_nodes_by_input_name sliceSharedMidG "n").length = 2 ∧
    (okGraph (slice_constant_folding sliceSharedMidG)).map (fun g =>
      (find_node_by_output_name g "n",
       g.node.contains ⟨"Relu", "X", ["n"], ["x"], []⟩)) = some (none, true) ∧
    okFolded (constant_folding 8 sharedConsumerG) = some true ∧
    (okGraph (constant_folding 8 sharedConsumerG)).map (fun g =>
      (find_node_by_output_name g "n",
       g.node.contains ⟨"Relu", "X", ["n"], ["x"], []⟩)) = some (none, true) ∧
    (resultProducerTensor (constant_folding 8 sharedConsumerG) "s1").map
      Tensor.vals = some [-1] := by
  decide

/-- C3 counterexample: the claim says a second run of the pass on an
already-folded graph reports changed = false and leaves it unchanged.  On
`idemG1` — itself the output of a full run on `idemG` — a second run reports
true and produces a different graph. -/
theorem second_fold_run_folds_again :
    okFolded (constant_folding 8 idemG1) = some true ∧
    okGraph (constant_folding 8 idemG1) ≠ some idemG1 := by
  exact ⟨rfl, by decide⟩

/-- C3 as amended: the pass is not idempotent.  A fold can leave a constant
with two foldable consumers (the first run on `idemG` folds the Neg and then
stalls, leaving a Constant feeding two Casts, because the eligibility gate
rejects multi-consumer constants and duplication has already run); the second
call re-runs duplication, splits that constant, folds both Casts and reports
changed = true again. -/
theorem constant_folding_not_idempotent :
    okFolded (constant_folding 8 idemG) = some true ∧
    okGraph (constant_folding 8 idemG) = some idemG1 ∧
    idemG1.node.map Node.op_type = ["Constant", "Cast", "Cast"] ∧
    okFolded (constant_folding 8 idemG1) = some true ∧
    (okGraph (constant_folding 8 idemG1)).map (fun g =>
      g.node.map Node.op_type) = some ["Constant", "Constant"] := by
  decide

/-- C4: the claim says Add/Sub/Mul/Div all fold elementwise under standard
right-aligned broadcasting.  Add does (the spec's [2,3] example folds to
[2,3] with the elementwise sums), but the Sub evaluator applies np.subtract
to the two *flat* payload lists without reshaping them (line 876): two [2,3]
operands fold to a flat [6] constant, and [2,1] − [1,2] operands — which
broadcast to [2,2] under the claimed semantics — fold to a [2] constant
holding the pairwise differences of the flat lists. -/
theorem sub_flat_subtract_shapes :
    (resultProducerTensor (sub_constant_folding subG) "d").map
      Tensor.dims = some [6] ∧
    (resultProducerTensor (sub_constant_folding subG) "d").map
      Tensor.vals = some [-9, -9, -9, -18, -18, -18] ∧
    resultProducerTensor (sub_constant_folding subBroadcastG) "d"
      = some (make_tensor "d_data" 1 [2] [9, 18]) ∧
    resultProducerTensor (add_constant_folding addSpecG) "s"
      = some (make_tensor "s" 1 [2, 3] [11, 11, 11, 22, 22, 22]) := by
  decide

/-- C5: the claim says every shared constant with at least one foldable
consumer is split into per-consumer clones by the duplication pre-pass.  The
pre-pass iterates the live node list while removing fully-foldable shared
constants in place, so the node right after a removed constant is skipped: in
`dupSkipG` the shared constant C1 (all consumers foldable) is split and
removed, but the immediately following shared constant C2 is never examined —
it keeps its two foldable Neg consumers and no c2 clone exists.  On
`dupMixedG` (one foldable, one non-foldable consumer, no removal) the clone
is created and the original survives for the Relu. -/
theorem duplicate_constant_node_skips_after_removal :
    (duplicate_constant_node dupSkipG).toOption.map (fun g =>
      (find_nodes_by_input_name g "c2").length) = some 2 ∧
    (duplicate_constant_node dupSkipG).toOption.map (fun g =>
      (find_node_by_output_name g "c2_dup_0",
       g.node.contains (constNode "c2" "C2" 1 [1] [6]))) = some (none, true) ∧
    (duplicate_constant_node dupSkipG).toOption.map (fun g =>
      ((find_node_by_output_name g "c1_dup_0").map Node.op_type,
       (find_node_by_output_name g "c1_dup_1").map Node.op_type,
       find_node_by_output_name g "c1"))
      = some (some "Constant", some "Constant", none) ∧
    (duplicate_constant_node dupMixedG).toOption.map (fun g =>
      (g.node.contains (constNode "c1" "C1" 1 [1] [5]),
       (find_node_by_output_name g "c1_dup_0").map Node.op_type,
       (find_nodes_by_input_name g "c1").map Node.name))
      = some (true, some "Constant", ["R1"]) := by
  decide

/-- C6 counterexample: the claim says sub-threshold elements are clamped to
magnitude 1e-8 *preserving their sign*, which for the element -1e-9 would
give -1e-8 and a folded value of -1e8.  The code's clamp (line 680) replaces
any element of magnitude at most 1e-8 by the positive constant 1e-8, so
Reciprocal of Constant([1], [-1e-9]) folds to +1e8, not -1e8. -/
theorem reciprocal_small_negative_positive_result :
    (resultProducerTensor (reciprocal_constant_folding recipNegG) "r").map
      Tensor.vals = some [100000000] ∧
    (resultProducerTensor (reciprocal_constant_folding recipNegG) "r").map
      Tensor.vals ≠ some [-100000000] := by
  decide

/-- C6 as amended: any element whose magnitude is at most 1e-8 is replaced by
the positive constant 1e-8 (the sign is discarded, and the boundary value
-1e-8 itself is replaced) before elementwise inversion; elements of magnitude
above 1e-8 are inverted exactly.  In particular Reciprocal of
Constant([5], [0, 4, -1e-9, -1e-8, 1e-9]) folds to
[1e8, 0.25, 1e8, 1e8, 1e8], which contains the spec's
Reciprocal([0, 4]) = [1e8, 0.25] example. -/
theorem reciprocal_clamp_positive_semantics :
    (resultProducerTensor (reciprocal_constant_folding recipAllG) "r").map
      Tensor.vals = some [100000000, mkRat 1 4, 100000000, 100000000, 100000000] ∧
    reciprocalClamp (mkRat (-1) 1000000000) = mkRat 1 100000000 ∧
    reciprocalClamp (mkRat (-1) 100000000) = mkRat 1 100000000 ∧
    reciprocalClamp (mkRat 1 2) = mkRat 1 2 ∧
    reciprocalClamp (mkRat (-1) 2) = mkRat (-1) 2 := by
  decide

/-- C7: Cast folds a constant operand by converting its elements according to
the node's dtype attribute — codes 6 and 7 (32/64-bit integer) truncate via
int(), code 1 (the float dtype) converts via float(), and any other code
raises the unsupported-type error, which aborts the whole constant_folding
pass (shown on `castG 9`) instead of skipping the node.  The successful
conversions are shown both on the conversion step for arbitrary `d` and
through the whole pass at codes 6 and 1. -/
theorem cast_dtype_handling (d : Int) (data : List Rat) :
    ((d = 6 ∨ d = 7) →
      castConvert d data
        = Except.ok (data.map (fun x => ((ratTrunc x : Int) : Rat)))) ∧
    (d = 1 → castConvert d data = Except.ok (data.map (fun x => x))) ∧
    (¬ (d = 1 ∨ d = 6 ∨ d = 7) →
      castConvert d data = Except.error "data type not supported") ∧
    errMsg (constant_folding 8 (castG 9)) = some "data type not supported" ∧
    resultProducerTensor (constant_folding 8 (castG 6)) "k"
      = some (make_tensor "value" 6 [3] [2, -3, 3]) ∧
    resultProducerTensor (constant_folding 8 (castG 1)) "k"
      = some (make_tensor "value" 1 [3] [mkRat 5 2, mkRat (-7) 2, 3]) := by
  refine ⟨?_, ?_, ?_, ?_, ?_, ?_⟩
  · rintro (h | h) <;> subst h <;> rfl
  · rintro h
    subst h
    rfl
  · intro h
    have h1 : ¬ d = 1 := fun hc => h (Or.inl hc)
    have h67 : ¬ (d = 6 ∨ d = 7) := fun hc =>
      h (hc.elim (fun x => Or.inr (Or.inl x)) (fun x => Or.inr (Or.inr x)))
    unfold castConvert
    rw [if_neg h67, if_neg h1]
  · decide
  · decide
  · decide

/-- Witness for cast_dtype_handling at the concrete dtype codes 7, 1 and 9. -/
theorem cast_dtype_handling_witness :
    castConvert 7 [mkRat 5 2, mkRat (-7) 2, 3]
      = Except.ok ([mkRat 5 2, mkRat (-7) 2, 3].map
          (fun x => ((ratTrunc x : Int) : Rat))) ∧
    castConvert 1 [mkRat 5 2, mkRat (-7) 2, 3]
      = Except.ok ([mkRat 5 2, mkRat (-7) 2, 3].map (fun x => x)) ∧
    castConvert 9 [mkRat 5 2, mkRat (-7) 2, 3]
      = Except.error "data type not supported" :=
  ⟨(cast_dtype_handling 7 [mkRat 5 2, mkRat (-7) 2, 3]).1 (Or.inr rfl),
   (cast_dtype_handling 1 [mkRat 5 2, mkRat (-7) 2, 3]).2.1 rfl,
   (cast_dtype_handling 9 [mkRat 5 2, mkRat (-7) 2, 3]).2.2.1 (by decide)⟩

/-- One input passes the gate's per-input check iff its producer is a
Constant and the input value has at most one consumer. -/
theorem input_check_iff (g : Graph) (name : String) :
    input_is_Constant_with_one_child g name = true ↔
      (∃ c, find_node_by_output_name g name = some c ∧
        c.op_type = "Constant") ∧
      (find_nodes_by_input_name g name).length ≤ 1 := by
  unfold input_is_Constant_with_one_child
  cases hfind : find_node_by_output_name g name with
  | none => simp
  | some c =>
    by_cases hop : c.op_type = "Constant"
    · by_cases hlen : (find_nodes_by_input_name g name).length > 1
      · simp only [hop, hlen]
        simp
        omega
      · simp only [hop, hlen]
        simp [hop]
        omega
    · simp [hop]


/-- A node of the graph is itself a consumer of each of its input values. -/
theorem self_mem_find_nodes_by_input_name (g : Graph) (node : Node)
    (hg : node ∈ g.node) {name : String} (hi : name ∈ node.input) :
    node ∈ find_nodes_by_input_name g name := by
  unfold find_nodes_by_input_name
  rw [List.mem_filter]
  exact ⟨hg, by simpa using hi⟩

/-- C8: for a node of the graph, the eligibility gate (a pure Bool-valued
function of the graph and node in this embedding) returns true iff every
input value of the node is produced by a Constant node and has exactly one
consumer in the current graph.  (The source checks "at most one consumer",
but the node itself always is a consumer of each of its inputs, so at most
one means exactly one.) -/
theorem gate_iff_constant_single_consumer (g : Graph) (node : Node)
    (h : node ∈ g.node) :
    are_all_inputs_Constant_with_one_child g node = true ↔
      ∀ name ∈ node.input,
        (∃ c, find_node_by_output_name g name = some c ∧
          c.op_type = "Constant") ∧
        (find_nodes_by_input_name g name).length = 1 := by
  unfold are_all_inputs_Constant_with_one_child
  rw [List.all_eq_true]
  constructor
  · intro hall name hname
    have hc := (input_check_iff g name).mp (hall name hname)
    have h1 : 1 ≤ (find_nodes_by_input_name g name).length :=
      List.length_pos.mpr
        (List.ne_nil_of_mem (self_mem_find_nodes_by_input_name g node h hname))
    exact ⟨hc.1, by omega⟩
  · intro hall name hname
    rw [input_check_iff g name]
    exact ⟨(hall name hname).1, by have := (hall name hname).2; omega⟩

/-- Witness for gate_iff_constant_single_consumer on a concrete two-node
graph: a Neg consuming a single-consumer constant. -/
theorem gate_iff_constant_single_consumer_witness :
    (⟨"Neg", "N", ["c"], ["n"], []⟩ : Node) ∈
      (⟨[constNode "c" "C" 1 [1] [1], ⟨"Neg", "N", ["c"], ["n"], []⟩],
        [⟨"c", 1, [1]⟩]⟩ : Graph).node ∧
    (are_all_inputs_Constant_with_one_child
        ⟨[constNode "c" "C" 1 [1] [1], ⟨"Neg", "N", ["c"], ["n"], []⟩],
         [⟨"c", 1, [1]⟩]⟩ ⟨"Neg", "N", ["c"], ["n"], []⟩ = true ↔
      ∀ name ∈ (⟨"Neg", "N", ["c"], ["n"], []⟩ : Node).input,
        (∃ c, find_node_by_output_name
            ⟨[constNode "c" "C" 1 [1] [1], ⟨"Neg", "N", ["c"], ["n"], []⟩],
             [⟨"c", 1, [1]⟩]⟩ name = some c ∧
          c.op_type = "Constant") ∧
        (find_nodes_by_input_name
            ⟨[constNode "c" "C" 1 [1] [1], ⟨"Neg", "N", ["c"], ["n"], []⟩],
             [⟨"c", 1, [1]⟩]⟩ name).length = 1) :=
  ⟨by decide,
   gate_iff_constant_single_consumer _ _ (by decide)⟩

/-- C9: a node whose input list is empty passes the eligibility gate
vacuously — the all-quantified per-input condition holds over no inputs — so
a registered-op node with no inputs is treated as fold-eligible. -/
theorem gate_true_on_empty_inputs (g : Graph) (node : Node)
    (h : node.input = []) :
    are_all_inputs_Constant_with_one_child g node = true := by
  unfold are_all_inputs_Constant_with_one_child
  rw [h]
  rfl

/-- Witness for gate_true_on_empty_inputs: an input-less Floor node in the
empty graph. -/
theorem gate_true_on_empty_inputs_witness :
    are_all_inputs_Constant_with_one_child ⟨[], []⟩
      ⟨"Floor", "F", [], ["f"], []⟩ = true :=
  gate_true_on_empty_inputs ⟨[], []⟩ ⟨"Floor", "F", [], ["f"], []⟩ rfl

/-- C10: for a Cast node over a constant whose decoded shape is the scalar
sentinel, the folded Constant is emitted with empty dims (lines 209-215), for
each supported dtype code: Cast preserves scalar-ness instead of producing a
1-element vector.  (The 7/2 payload truncates to 3 under the integer codes
and stays 7/2 under the float code.) -/
theorem cast_scalar_sentinel_dims (d : Int) (h : d = 1 ∨ d = 6 ∨ d = 7) :
    (resultProducerTensor (cast_constant_folding (castScalarG d)) "k").map
      Tensor.dims = some [] := by
  rcases h with h | h | h <;> subst h <;> decide

/-- Witness for cast_scalar_sentinel_dims at dtype code 7. -/
theorem cast_scalar_sentinel_dims_witness :
    ((7 : Int) = 1 ∨ (7 : Int) = 6 ∨ (7 : Int) = 7) ∧
    (resultProducerTensor (cast_constant_folding (castScalarG 7)) "k").map
      Tensor.dims = some [] :=
  ⟨by decide, cast_scalar_sentinel_dims 7 (by decide)⟩

/-- Sanity lemma for the numeric model: the reducible qAdd agrees with
standard rational addition. -/
theorem qAdd_eq_add (a b : Rat) : qAdd a b = a + b := by
  unfold qAdd
  rw [Rat.mkRat_eq_div]
  have ha : ((a.den : Rat)) ≠ 0 := by
    exact_mod_cast a.den_nz
  have hb : ((b.den : Rat)) ≠ 0 := by
    exact_mod_cast b.den_nz
  conv_rhs => rw [← Rat.num_div_den a, ← Rat.num_div_den b]
  rw [div_add_div _ _ ha hb]
  push_cast
  ring_nf

/-- Sanity lemma for the numeric model: qMul agrees with multiplication. -/
theorem qMul_eq_mul (a b : Rat) : qMul a b = a * b := by
  unfold qMul
  rw [Rat.mkRat_eq_div]
  conv_rhs => rw [← Rat.num_div_den a, ← Rat.num_div_den b]
  rw [div_mul_div_comm]
  push_cast
  ring_nf

/-- Sanity lemma for the numeric model: qSub agrees with subtraction. -/
theorem qSub_eq_sub (a b : Rat) : qSub a b = a - b := by
  unfold qSub
  rw [qAdd_eq_add, sub_eq_add_neg]

/-- Sanity lemma for the numeric model: qInv agrees with inversion
(0⁻¹ = 0 in both). -/
theorem qInv_eq_inv (a : Rat) : qInv a = a⁻¹ := by
  unfold qInv
  rcases lt_trichotomy a.num 0 with h | h | h
  · rw [if_pos h, Rat.mkRat_eq_div]
    conv_rhs => rw [← Rat.num_div_den a]
    rw [inv_div]
    push_cast [Int.cast_natAbs]
    rw [abs_of_neg (by exact_mod_cast h), neg_div_neg_eq]
  · rw [if_neg (by omega), if_neg (by omega), Rat.num_eq_zero.mp h, inv_zero]
  · rw [if_neg (by omega), if_pos h, Rat.mkRat_eq_div]
    conv_rhs => rw [← Rat.num_div_den a]
    rw [inv_div]
    push_cast [Int.cast_natAbs]
    rw [abs_of_pos (by exact_mod_cast h)]

/-- Sanity lemma for the numeric model: qDiv agrees with division. -/
theorem qDiv_eq_div (a b : Rat) : qDiv a b = a / b := by
  unfold qDiv
  rw [qMul_eq_mul, qInv_eq_inv, div_eq_mul_inv]
